import Mathlib

/-!
Shallow embedding of the charging-session enrichment pipelines in
`src/api/ampecosessions.js` (namespace `Ampeco`) and the second program in
`src/unnamed/part_000` (namespace `AmpecoB`), together with proofs about the
claims on their specification.

JavaScript dynamic values are modelled by `JSVal`; numbers are modelled as
exact rationals plus NaN and the two infinities (`JSNum`).  Double-precision
rounding is not modelled: all arithmetic is exact.  Where the two differ
(only far outside the magnitudes these programs handle), a comment near the
relevant definition says so.
-/

set_option linter.unusedVariables false
set_option maxRecDepth 4000

/-- A JavaScript number: NaN, an infinity, or a finite value (modelled as an
exact rational; IEEE-754 rounding is not modelled).  Negative zero is
identified with zero. -/
inductive JSNum where
  | nan
  | inf (pos : Bool)
  | fin (q : ℚ)
  deriving DecidableEq, Repr

/-- A JavaScript/JSON value.  Objects are ordered key/value lists in which a
later binding shadows an earlier one (the semantics of object literals and
spreads); functions are not needed by the embedded code. -/
inductive JSVal where
  | vUndefined
  | vNull
  | vBool (b : Bool)
  | vNum (n : JSNum)
  | vStr (s : String)
  | vArr (xs : List JSVal)
  | vObj (kvs : List (String × JSVal))

mutual

/-- Decidable equality of values (the SameValueZero equality used by Map and
Set keys: a single NaN and a single zero make it structural equality). -/
def JSVal.decEq : (a b : JSVal) → Decidable (a = b)
  | .vUndefined, .vUndefined => .isTrue rfl
  | .vNull, .vNull => .isTrue rfl
  | .vBool a, .vBool b =>
      if h : a = b then .isTrue (by rw [h]) else .isFalse (by simp [h])
  | .vNum a, .vNum b =>
      if h : a = b then .isTrue (by rw [h]) else .isFalse (by simp [h])
  | .vStr a, .vStr b =>
      if h : a = b then .isTrue (by rw [h]) else .isFalse (by simp [h])
  | .vArr xs, .vArr ys =>
      match JSVal.decEqList xs ys with
      | .isTrue h => .isTrue (by rw [h])
      | .isFalse h => .isFalse (by simp [h])
  | .vObj xs, .vObj ys =>
      match JSVal.decEqKvs xs ys with
      | .isTrue h => .isTrue (by rw [h])
      | .isFalse h => .isFalse (by simp [h])
  | .vUndefined, .vNull | .vUndefined, .vBool _ | .vUndefined, .vNum _ | .vUndefined, .vStr _
  | .vUndefined, .vArr _ | .vUndefined, .vObj _ => .isFalse (by simp)
  | .vNull, .vUndefined | .vNull, .vBool _ | .vNull, .vNum _ | .vNull, .vStr _
  | .vNull, .vArr _ | .vNull, .vObj _ => .isFalse (by simp)
  | .vBool _, .vUndefined | .vBool _, .vNull | .vBool _, .vNum _ | .vBool _, .vStr _
  | .vBool _, .vArr _ | .vBool _, .vObj _ => .isFalse (by simp)
  | .vNum _, .vUndefined | .vNum _, .vNull | .vNum _, .vBool _ | .vNum _, .vStr _
  | .vNum _, .vArr _ | .vNum _, .vObj _ => .isFalse (by simp)
  | .vStr _, .vUndefined | .vStr _, .vNull | .vStr _, .vBool _ | .vStr _, .vNum _
  | .vStr _, .vArr _ | .vStr _, .vObj _ => .isFalse (by simp)
  | .vArr _, .vUndefined | .vArr _, .vNull | .vArr _, .vBool _ | .vArr _, .vNum _
  | .vArr _, .vStr _ | .vArr _, .vObj _ => .isFalse (by simp)
  | .vObj _, .vUndefined | .vObj _, .vNull | .vObj _, .vBool _ | .vObj _, .vNum _
  | .vObj _, .vStr _ | .vObj _, .vArr _ => .isFalse (by simp)
termination_by structural a => a

/-- Decidable equality of value lists. -/
def JSVal.decEqList : (xs ys : List JSVal) → Decidable (xs = ys)
  | [], [] => .isTrue rfl
  | [], _ :: _ => .isFalse (by simp)
  | _ :: _, [] => .isFalse (by simp)
  | x :: xs, y :: ys =>
      match JSVal.decEq x y with
      | .isFalse h => .isFalse (by simp [h])
      | .isTrue h1 =>
        match JSVal.decEqList xs ys with
        | .isTrue h2 => .isTrue (by rw [h1, h2])
        | .isFalse h2 => .isFalse (by simp [h2])
termination_by structural a => a

/-- Decidable equality of object bodies. -/
def JSVal.decEqKvs : (xs ys : List (String × JSVal)) → Decidable (xs = ys)
  | [], [] => .isTrue rfl
  | [], _ :: _ => .isFalse (by simp)
  | _ :: _, [] => .isFalse (by simp)
  | (k1, v1) :: xs, (k2, v2) :: ys =>
      if hk : k1 = k2 then
        match JSVal.decEq v1 v2 with
        | .isFalse h => .isFalse (by simp [h])
        | .isTrue h1 =>
          match JSVal.decEqKvs xs ys with
          | .isTrue h2 => .isTrue (by rw [hk, h1, h2])
          | .isFalse h2 => .isFalse (by simp [h2])
      else .isFalse (by simp [hk])
termination_by structural a => a

end

instance : DecidableEq JSVal := JSVal.decEq

namespace JSVal

/-- A value is nullish when it is `null` or `undefined` (the test used by
the coalescing operator and by loose comparison with null). -/
def nullish : JSVal → Bool
  | vUndefined => true
  | vNull => true
  | _ => false

/-- JavaScript truthiness.  NaN and 0 are falsy, the infinities are truthy,
the empty string is falsy, every array and object is truthy. -/
def truthy : JSVal → Bool
  | vUndefined => false
  | vNull => false
  | vBool b => b
  | vNum .nan => false
  | vNum (.inf _) => true
  | vNum (.fin q) => decide (q ≠ 0)
  | vStr s => decide (s ≠ "")
  | vArr _ => true
  | vObj _ => true

/-- The nullish-coalescing operator: `a ?? b`. -/
def coalesce (a b : JSVal) : JSVal :=
  if nullish a then b else a

/-- The or operator on values: `a || b` returns `a` when truthy, else `b`. -/
def orElse (a b : JSVal) : JSVal :=
  if truthy a then a else b

/-- Last-binding-wins lookup in an object body: the value of the key is that
of its final occurrence, `undefined` if absent. -/
def getKvs (kvs : List (String × JSVal)) (k : String) : JSVal :=
  match kvs.reverse.find? (fun p => p.1 == k) with
  | some p => p.2
  | none => vUndefined

/-- Plain property access `v.k`.  On an object it is key lookup; on a
primitive it yields `undefined` for the data keys this code reads.  In
JavaScript access on `null`/`undefined` throws; the pipeline only performs
plain access on values that its guards or the well-formedness hypotheses of
the theorems below keep non-nullish, so the model returns `undefined`
there. -/
def getProp (v : JSVal) (k : String) : JSVal :=
  match v with
  | vObj kvs => getKvs kvs k
  | _ => vUndefined

/-- Optional-chaining access `v?.k`: `undefined` on a nullish base. -/
def getPropQ (v : JSVal) (k : String) : JSVal :=
  if nullish v then vUndefined else getProp v k

/-- The test `Array.isArray`. -/
def isArr : JSVal → Bool
  | vArr _ => true
  | _ => false

/-- `Array.isArray(v) ? v : []`, as a Lean list of elements. -/
def asArray : JSVal → List JSVal
  | vArr xs => xs
  | _ => []

/-- The test `typeof v === 'object'` (true of objects, arrays and null). -/
def typeofObject : JSVal → Bool
  | vObj _ => true
  | vArr _ => true
  | vNull => true
  | _ => false

/-- Whether a value is an object proper (used in well-formedness
hypotheses about upstream records). -/
def isObj : JSVal → Bool
  | vObj _ => true
  | _ => false

/-- The body of an object spread `{...v}`: the bindings of an object,
nothing for null/undefined and the primitives the pipeline spreads.
(Spreading a string would produce index properties; no string is spread by
the embedded code.) -/
def spreadKvs : JSVal → List (String × JSVal)
  | vObj kvs => kvs
  | _ => []

end JSVal

namespace JSNum

/-- `Number.isFinite` on an already-numeric value. -/
def isFinite : JSNum → Bool
  | fin _ => true
  | _ => false

/-- The comparison `n > 0` on a number (false for NaN). -/
def gtZero : JSNum → Bool
  | fin q => decide (0 < q)
  | inf b => b
  | nan => false

/-- `Number.isFinite(n) && n > 0`, the acceptance test used on userIds. -/
def isFinPos (n : JSNum) : Bool :=
  n.isFinite && n.gtZero

/-- Whether a number is a finite positive integer (the reading of the claim
text; the source code itself only tests `isFinPos`). -/
def isFinPosInt : JSNum → Bool
  | fin q => decide (q.den = 1 ∧ 0 < q.num)
  | _ => false

/-- JavaScript division.  Only exact rational division is modelled (no
IEEE-754 rounding); the embedded code divides by the literal 1000 only. -/
def div : JSNum → JSNum → JSNum
  | nan, _ => nan
  | _, nan => nan
  | fin a, fin b =>
      if b = 0 then (if a = 0 then nan else inf (decide (0 < a))) else fin (a / b)
  | inf s, fin b => if b = 0 then inf s else inf (s = decide (0 ≤ b))
  | fin _, inf _ => fin 0
  | inf _, inf _ => nan

/-- Rounding to 3 decimal places, half toward positive infinity: the value
of `Number(x.toFixed(3))` for the finite values this pipeline produces. -/
def round3 (q : ℚ) : ℚ :=
  (⌊q * 1000 + 1 / 2⌋ : ℤ) / 1000

/-- `Number(n.toFixed(3))`: NaN and the infinities round-trip through their
string forms unchanged; a finite value is rounded to 3 decimal places.
(For magnitudes at or above 10^21 `toFixed` falls back to `toString`, which
also round-trips; double rounding inside `toFixed` is not modelled.) -/
def toFixed3 : JSNum → JSNum
  | nan => nan
  | inf b => inf b
  | fin q => fin (round3 q)

/-- `a || b` at number type (used for `Number(per_page) || 100`). -/
def orDefault (a b : JSNum) : JSNum :=
  match a with
  | nan => b
  | fin q => if q = 0 then b else fin q
  | inf s => inf s

/-- `Math.min` (NaN-propagating). -/
def minN : JSNum → JSNum → JSNum
  | nan, _ => nan
  | _, nan => nan
  | fin a, fin b => fin (min a b)
  | inf true, x => x
  | inf false, _ => inf false
  | x, inf true => x
  | _, inf false => inf false

end JSNum

/-- Decimal digits of a natural number, most significant first. -/
def natDigits (n : ℕ) : List Char :=
  (Nat.toDigits 10 n)

/-- Render an integer the way JavaScript renders an integral number. -/
def intToString (i : ℤ) : String :=
  if i < 0 then "-" ++ String.mk (natDigits i.natAbs) else String.mk (natDigits i.natAbs)

/-- Smallest k ≤ 40 with den ∣ 10^k, if any: the length of the terminating
decimal expansion.  Every finite number this pipeline produces from integral
upstream data terminates. -/
def decExp (den : ℕ) : Option ℕ :=
  (List.range 41).find? (fun k => 10 ^ k % den = 0)

/-- Render a rational as JavaScript renders the corresponding number,
for terminating decimals (the only finite numbers the embedded code turns
into strings).  A non-terminating rational (unreachable from integral
upstream data) is rendered with a marker. -/
def ratToString (q : ℚ) : String :=
  if q.den = 1 then intToString q.num
  else
    match decExp q.den with
    | none => "(nonterminating)"
    | some k =>
        let m : ℤ := q.num * (10 ^ k : ℤ) / (q.den : ℤ)
        let sign := if m < 0 then "-" else ""
        let ds := natDigits m.natAbs
        let ds := if ds.length ≤ k then List.replicate (k + 1 - ds.length) '0' ++ ds else ds
        let intPart := String.mk (ds.take (ds.length - k))
        let fracPart := String.mk ((ds.drop (ds.length - k)).reverse.dropWhile (· = '0')).reverse
        if fracPart = "" then sign ++ intPart else sign ++ intPart ++ "." ++ fracPart

mutual

/-- The `String(...)` coercion. -/
def jsToString : JSVal → String
  | .vUndefined => "undefined"
  | .vNull => "null"
  | .vBool b => if b then "true" else "false"
  | .vNum .nan => "NaN"
  | .vNum (.inf true) => "Infinity"
  | .vNum (.inf false) => "-Infinity"
  | .vNum (.fin q) => ratToString q
  | .vStr s => s
  | .vArr xs => arrJoinComma xs
  | .vObj _ => "[object Object]"
termination_by structural v => v

/-- `Array.prototype.toString`: elements joined by commas, with nullish
elements rendered as the empty string. -/
def arrJoinComma : List JSVal → String
  | [] => ""
  | [x] => if x.nullish then "" else jsToString x
  | x :: rest => (if x.nullish then "" else jsToString x) ++ "," ++ arrJoinComma rest
termination_by structural xs => xs

end

/-- The characters removed by the trim operations this code performs
(JavaScript trims the full Unicode whitespace set; the data only carries
these). -/
def isWsChar (c : Char) : Bool :=
  c = ' ' || c = '\t' || c = '\n' || c = '\r'

/-- The `String.prototype.trim` operation. -/
def jsTrim (s : String) : String :=
  String.mk (((s.toList.dropWhile isWsChar).reverse.dropWhile isWsChar).reverse)

/-- The numeric value of a digit string. -/
def digitsVal (cs : List Char) : ℕ :=
  cs.foldl (fun n c => n * 10 + (c.toNat - 48)) 0

/-- Parse an unsigned decimal literal (digits, optionally with one point)
into a rational; `none` when the string is not such a literal. -/
def parseDecimal (s : List Char) : Option ℚ :=
  let ip := s.takeWhile (fun c => c ≠ '.')
  match s.drop ip.length with
  | [] => if ip ≠ [] ∧ ip.all Char.isDigit then some ((digitsVal ip : ℚ)) else none
  | '.' :: fp =>
      if fp.all (fun c => c ≠ '.') ∧ (ip ≠ [] ∨ fp ≠ []) ∧
          ip.all Char.isDigit ∧ fp.all Char.isDigit then
        some ((digitsVal ip : ℚ) + (if fp = [] then 0 else (digitsVal fp : ℚ) / (10 ^ fp.length : ℚ)))
      else none
  | _ => none

/-- The string-to-number coercion used by `Number(...)`.  Whitespace-only
strings coerce to 0; signed decimal literals and the infinity literals are
parsed; everything else (including exponent and hex forms, which the data
this pipeline reads does not use) is NaN. -/
def strToNum (s : String) : JSNum :=
  let t := jsTrim s
  if t = "" then .fin 0
  else
    let (neg, rest) :=
      match t.toList with
      | '-' :: r => (true, r)
      | '+' :: r => (false, r)
      | r => (false, r)
    if String.mk rest = "Infinity" then .inf (!neg)
    else
      match parseDecimal rest with
      | some q => .fin (if neg then -q else q)
      | none => .nan

/-- The `Number(...)` coercion.  An array coerces through its string form;
a plain object coerces to NaN. -/
def toNumber (v : JSVal) : JSNum :=
  match v with
  | .vUndefined => .nan
  | .vNull => .fin 0
  | .vBool b => .fin (if b then 1 else 0)
  | .vNum n => n
  | .vStr s => strToNum s
  | .vArr xs => strToNum (jsToString (.vArr xs))
  | .vObj _ => .nan

/-- The outcome of one upstream fetch: a success whose JSON body decoded to
the given value, or a non-success response (its HTTP status and body text).
The error case also stands for a thrown fetch where the source wraps the
call in try/catch. -/
inductive Fetched where
  | ok (json : JSVal)
  | err (status : Nat) (text : String)
  deriving DecidableEq

/-- One HTTP response issued by the handler: `res.status(code).json(body)`. -/
structure Resp where
  status : Nat
  body : JSVal
  deriving DecidableEq

/-- The upstream API, one oracle per resource.  Listing walks are strictly
sequential, so their oracles are indexed by the page number of the walk;
per-id endpoints are indexed by the id value. -/
structure Upstream where
  sessionPages : Nat → Fetched
  cpPages : Nat → Fetched
  locPages : Nat → Fetched
  userFetch : JSVal → Fetched
  tagFetch : JSVal → Fetched
  evsePages : Nat → Fetched
  cpEvsePages : JSVal → Nat → Fetched
  evse2Pages : Nat → Fetched

/-- An insertion-ordered map with JavaScript values as keys (Map semantics:
SameValueZero key equality; `set` of an existing key keeps its position). -/
abbrev JMap (α : Type) := List (JSVal × α)

/-- Map lookup. -/
def mget {α : Type} (m : JMap α) (k : JSVal) : Option α :=
  (m.find? (fun p => p.1 == k)).map Prod.snd

/-- Map membership. -/
def mhas {α : Type} (m : JMap α) (k : JSVal) : Bool :=
  (m.find? (fun p => p.1 == k)).isSome

/-- Map insertion (replacing in place when the key exists). -/
def mset {α : Type} (m : JMap α) (k : JSVal) (v : α) : JMap α :=
  if mhas m k then m.map (fun p => if p.1 == k then (k, v) else p) else m ++ [(k, v)]

/-- Map lookup returning `undefined` when absent (the value of `Map.get`). -/
def mgetJS (m : JMap JSVal) (k : JSVal) : JSVal :=
  match mget m k with
  | some v => v
  | none => .vUndefined

/-- The values of a map in insertion order (`Array.from(m.values())`). -/
def mvalues {α : Type} (m : JMap α) : List α :=
  m.map Prod.snd

/-- Insertion-ordered deduplication: the effect of pouring a list through a
JavaScript Set. -/
def dedupJS (xs : List JSVal) : List JSVal :=
  xs.foldl (fun acc x => if acc.contains x then acc else acc ++ [x]) []

/-- The first element of an array, `undefined` when empty (`a[0]`). -/
def headOr : List JSVal → JSVal
  | [] => .vUndefined
  | x :: _ => x

/-- The staged failure payload `{ stage, upstreamStatus, url, body }` that
both pipeline variants return when a mandatory listing page fetch is not
successful. -/
def failRespBody (stage : String) (status : Nat) (url : JSVal) (text : String) : JSVal :=
  .vObj [("stage", .vStr stage), ("upstreamStatus", .vNum (.fin (status : ℚ))),
         ("url", url), ("body", .vStr text)]

/-- The success payload `{ count, data }`. -/
def okRespBody (xs : List JSVal) : JSVal :=
  .vObj [("count", .vNum (.fin (xs.length : ℚ))), ("data", .vArr xs)]

/-- Whether a value passes `Number.isFinite(n) && n > 0` without coercion
(the filter applied to the already-resolved userId values). -/
def isFinPosVal : JSVal → Bool
  | .vNum n => n.isFinPos
  | _ => false

/-- The request body after destructuring, for both variants.  Absent fields
are `undefined`.  In the source `maxPages` is a body field defaulting to
10000 and compared with `pages <` at number type; it is modelled directly as
the natural number of pages the caps allow, which is how every claim uses
it. -/
structure ReqBody where
  startedAfter : JSVal
  startedBefore : JSVal
  endedAfter : JSVal
  endedBefore : JSVal
  tariffSnapshotId : JSVal
  per_page : JSVal
  maxPages : Nat

/-- Render query parameters (percent-encoding is not modelled; the claims
never depend on the rendered text). -/
def renderQS (ps : List (String × String)) : String :=
  String.intercalate "&" (ps.map (fun p => p.1 ++ "=" ++ p.2))

namespace Ampeco

/-- The sessions query string of `src/api/ampecosessions.js` lines 40-49. -/
def sessionsQS (req : ReqBody) : List (String × String) :=
  [("per_page", jsToString (.vNum (JSNum.minN (JSNum.orDefault (toNumber req.per_page) (.fin 100)) (.fin 100)))),
   ("cursor", ""),
   ("withAuthorization", "true")]
  ++ (if req.startedAfter.truthy then [("filter[startedAfter]", jsToString req.startedAfter)] else [])
  ++ (if req.startedBefore.truthy then [("filter[startedBefore]", jsToString req.startedBefore)] else [])
  ++ (if req.endedAfter.truthy then [("filter[endedAfter]", jsToString req.endedAfter)] else [])
  ++ (if req.endedBefore.truthy then [("filter[endedBefore]", jsToString req.endedBefore)] else [])
  ++ (if !req.tariffSnapshotId.nullish then [("filter[tariffSnapshotId]", jsToString req.tariffSnapshotId)] else [])

/-- The first-page sessions URL (line 51). -/
def sessionsUrl (base : String) (req : ReqBody) : String :=
  base ++ "/public-api/resources/sessions/v1.0?" ++ renderQS (sessionsQS req)

/-- Lines 70-74: prefer a coerced finite positive top-level userId, else the
authorization block, else 0. -/
def resolvedUserId (s : JSVal) : JSNum :=
  let topUser := toNumber (s.getProp "userId")
  let authUser := toNumber ((s.getProp "authorization").getPropQ "userId")
  if topUser.isFinPos then topUser
  else if authUser.isFinPos then authUser
  else .fin 0

/-- Line 76: `s.idTag ?? s.authorization?.rfidTagUid ?? null`. -/
def resolvedIdTag (s : JSVal) : JSVal :=
  (s.getProp "idTag").coalesce (((s.getProp "authorization").getPropQ "rfidTagUid").coalesce .vNull)

/-- Line 77: `s.energy ?? s.energyConsumption?.total ?? 0`. -/
def whOf (s : JSVal) : JSVal :=
  (s.getProp "energy").coalesce (((s.getProp "energyConsumption").getPropQ "total").coalesce (.vNum (.fin 0)))

/-- Line 78: `Number((wh / 1000).toFixed(3))`. -/
def kWh (s : JSVal) : JSNum :=
  (JSNum.div (toNumber (whOf s)) (.fin 1000)).toFixed3

/-- Lines 80-87: the record pushed for one deduplicated session. -/
def mkSessionRec (s : JSVal) : JSVal :=
  .vObj (s.spreadKvs ++
    [("userIdRaw", (s.getProp "userId").coalesce .vNull),
     ("userId", .vNum (resolvedUserId s)),
     ("idTagRaw", (s.getProp "idTag").coalesce .vNull),
     ("idTag", resolvedIdTag s),
     ("kWh", .vNum (kWh s))])

/-- The collector state: the seen-keys set, the count of generated fresh
keys, and the sessions pushed so far. -/
structure CState where
  seen : List String
  ctr : Nat
  out : List JSVal
  deriving DecidableEq

/-- Lines 65-88 for one record: compute the deduplication key (the id, or a
fresh `Date.now()-Math.random()` string modelled by the `keyGen` oracle),
skip when seen, else push the resolved record. -/
def collectStep (keyGen : Nat → String) (st : CState) (s : JSVal) : CState :=
  if (s.getProp "id").nullish then
    let sid := keyGen st.ctr
    if st.seen.contains sid then { st with ctr := st.ctr + 1 }
    else { seen := st.seen ++ [sid], ctr := st.ctr + 1, out := st.out ++ [mkSessionRec s] }
  else
    let sid := jsToString (s.getProp "id")
    if st.seen.contains sid then st
    else { st with seen := st.seen ++ [sid], out := st.out ++ [mkSessionRec s] }

/-- The record loop of lines 65-88 over one page of data. -/
def collectData (keyGen : Nat → String) (st : CState) (data : List JSVal) : CState :=
  data.foldl (collectStep keyGen) st

/-- Lines 56-92: the cursor walk over the sessions listing.  The fuel is the
number of pages `pages < maxPages` still admits. -/
def sessionsWalk (orc : Nat → Fetched) (keyGen : Nat → String) :
    Nat → JSVal → Nat → CState → Except Resp CState
  | 0, _, _, st => .ok st
  | fuel + 1, next, pageIdx, st =>
    if next.truthy then
      match orc pageIdx with
      | .err code txt => .error ⟨code, failRespBody "sessions" code next txt⟩
      | .ok page =>
          let st' := collectData keyGen st (JSVal.asArray (page.getPropQ "data"))
          sessionsWalk orc keyGen fuel
            (((page.getPropQ "links").getPropQ "next").orElse .vNull) (pageIdx + 1) st'
    else .ok st

/-- The whole sessions stage: the collected session list, or the staged
failure response. -/
def sessionsStage (base : String) (u : Upstream) (req : ReqBody) (keyGen : Nat → String) :
    Except Resp (List JSVal) :=
  (sessionsWalk u.sessionPages keyGen req.maxPages (.vStr (sessionsUrl base req)) 0 ⟨[], 0, []⟩).map CState.out

/-- Lines 99-101: the distinct charge-point ids referenced by the sessions. -/
def wantedCpIds (sessions : List JSVal) : List JSVal :=
  dedupJS ((sessions.map (fun s => s.getProp "chargePointId")).filter (fun v => !v.nullish))

/-- Lines 115-122: scan one charge-point page into the map/missing state. -/
def cpPageScan (st : JMap JSVal × List JSVal) (cps : List JSVal) : JMap JSVal × List JSVal :=
  cps.foldl (fun st cp =>
    let id := (cp.getPropQ "id").coalesce ((cp.getPropQ "chargePointId").coalesce .vNull)
    if id.nullish then st
    else if st.2.contains id then (mset st.1 id cp, st.2.filter (fun x => x != id))
    else st) st

/-- Lines 107-125: the charge-point listing walk, stopping early once no
wanted id is missing. -/
def cpWalk (orc : Nat → Fetched) :
    Nat → JSVal → Nat → JMap JSVal × List JSVal → Except Resp (JMap JSVal)
  | 0, _, _, st => .ok st.1
  | fuel + 1, next, pageIdx, st =>
    if next.truthy && !st.2.isEmpty then
      match orc pageIdx with
      | .err code txt => .error ⟨code, failRespBody "charge-points" code next txt⟩
      | .ok page =>
          let st' := cpPageScan st (JSVal.asArray (page.getPropQ "data"))
          cpWalk orc fuel (((page.getPropQ "links").getPropQ "next").orElse .vNull) (pageIdx + 1) st'
    else .ok st.1

/-- The charge-points stage. -/
def cpStage (base : String) (u : Upstream) (req : ReqBody) (sessions : List JSVal) :
    Except Resp (JMap JSVal) :=
  cpWalk u.cpPages req.maxPages
    (.vStr (base ++ "/public-api/resources/charge-points/v1.0?per_page=100&cursor=")) 0
    ([], wantedCpIds sessions)

/-- Lines 128-132: the distinct locationIds of the found charge points. -/
def wantedLocIds (cpMap : JMap JSVal) : List JSVal :=
  dedupJS (((mvalues cpMap).map (fun cp => cp.getPropQ "locationId")).filter (fun v => !v.nullish))

/-- Lines 147-154: scan one locations page. -/
def locPageScan (st : JMap JSVal × List JSVal) (locs : List JSVal) : JMap JSVal × List JSVal :=
  locs.foldl (fun st loc =>
    let id := loc.getPropQ "id"
    if id.nullish then st
    else if st.2.contains id then (mset st.1 id loc, st.2.filter (fun x => x != id))
    else st) st

/-- Lines 139-157: the locations listing walk. -/
def locWalk (orc : Nat → Fetched) :
    Nat → JSVal → Nat → JMap JSVal × List JSVal → Except Resp (JMap JSVal)
  | 0, _, _, st => .ok st.1
  | fuel + 1, next, pageIdx, st =>
    if next.truthy && !st.2.isEmpty then
      match orc pageIdx with
      | .err code txt => .error ⟨code, failRespBody "locations" code next txt⟩
      | .ok page =>
          let st' := locPageScan st (JSVal.asArray (page.getPropQ "data"))
          locWalk orc fuel (((page.getPropQ "links").getPropQ "next").orElse .vNull) (pageIdx + 1) st'
    else .ok st.1

/-- The locations stage. -/
def locStage (base : String) (u : Upstream) (req : ReqBody) (cpMap : JMap JSVal) :
    Except Resp (JMap JSVal) :=
  locWalk u.locPages req.maxPages
    (.vStr (base ++ "/public-api/resources/locations/v1.0?per_page=100&cursor=")) 0
    ([], wantedLocIds cpMap)

end Ampeco

namespace Ampeco

/-- The pair returned by `extractCpFields` (lines 159-165). -/
structure CpFields where
  chargePointName : JSVal
  locationId : JSVal
  deriving DecidableEq

/-- Lines 159-165: charge-point display name and locationId, null-guarded. -/
def extractCpFields (cp : JSVal) : CpFields :=
  if !cp.truthy || !cp.typeofObject then ⟨.vNull, .vNull⟩
  else
    ⟨(cp.getProp "name").coalesce ((cp.getProp "title").coalesce
        ((cp.getProp "reference").coalesce ((cp.getProp "code").coalesce .vNull))),
     (cp.getProp "locationId").coalesce .vNull⟩

/-- The record returned by `extractLocationFields` (lines 167-180). -/
structure LocFields where
  locationName : JSVal
  addressLine1 : JSVal
  city : JSVal
  country : JSVal
  latitude : JSVal
  longitude : JSVal
  deriving DecidableEq

/-- Lines 167-180: location naming, address and geo attributes across the
known alternative key paths. -/
def extractLocationFields (loc : JSVal) : LocFields :=
  if !loc.truthy || !loc.typeofObject then ⟨.vNull, .vNull, .vNull, .vNull, .vNull, .vNull⟩
  else
    let name := (loc.getProp "name").coalesce ((loc.getProp "title").coalesce .vNull)
    let address := (loc.getProp "address").coalesce ((loc.getProp "siteAddress").coalesce
      (((loc.getProp "location").getPropQ "address").coalesce .vNull))
    let line1 := (address.getPropQ "line1").coalesce ((address.getPropQ "addressLine1").coalesce
      ((address.getPropQ "street").coalesce ((address.getPropQ "line").coalesce .vNull)))
    let city := (address.getPropQ "city").coalesce ((address.getPropQ "town").coalesce
      ((address.getPropQ "locality").coalesce .vNull))
    let country := (address.getPropQ "country").coalesce ((address.getPropQ "countryCode").coalesce .vNull)
    let geo := (loc.getProp "geoposition").coalesce ((loc.getProp "geo").coalesce
      (((loc.getProp "location").getPropQ "geoposition").coalesce (.vObj [])))
    let latitude := (geo.getPropQ "latitude").coalesce ((geo.getPropQ "lat").coalesce .vNull)
    let longitude := (geo.getPropQ "longitude").coalesce ((geo.getPropQ "lng").coalesce .vNull)
    ⟨name, line1, city, country, latitude, longitude⟩

/-- The bindings contributed by `...locFields` in the final merge, in the
order of the object literal returned by `extractLocationFields`. -/
def locFieldsKvs (f : LocFields) : List (String × JSVal) :=
  [("locationName", f.locationName), ("addressLine1", f.addressLine1), ("city", f.city),
   ("country", f.country), ("latitude", f.latitude), ("longitude", f.longitude)]

/-- Line 183: the distinct finite positive resolved userIds of the sessions. -/
def userIdsOf (sessions : List JSVal) : List JSVal :=
  dedupJS ((sessions.map (fun s => s.getProp "userId")).filter isFinPosVal)

/-- Lines 184-186: the distinct idTags of sessions with no non-blank label. -/
def idTagsNeedingLookup (sessions : List JSVal) : List JSVal :=
  dedupJS (((sessions.filter (fun s =>
      (!(s.getProp "idTagLabel").truthy || jsTrim (jsToString (s.getProp "idTagLabel")) == "")
      && (s.getProp "idTag").truthy)).map (fun s => s.getProp "idTag")))

/-- The user attributes cached per fetched user (lines 201-205). -/
structure UserRec where
  firstName : JSVal
  lastName : JSVal
  email : JSVal
  name : JSVal
  deriving DecidableEq

/-- The join `[first, last].filter(Boolean).join(' ')`. -/
def joinNames (first last : JSVal) : String :=
  String.intercalate " " (([first, last].filter JSVal.truthy).map jsToString)

/-- Lines 200-205: decode a user payload (`payload?.data ?? payload`) into
the cached attributes; the stored name falls back to the first/last join. -/
def parseUserPayload (payload : JSVal) : UserRec :=
  let u := (payload.getPropQ "data").coalesce payload
  let first := (u.getPropQ "firstName").coalesce ((u.getPropQ "firstname").coalesce .vNull)
  let last := (u.getPropQ "lastName").coalesce ((u.getPropQ "lastname").coalesce .vNull)
  let email := (u.getPropQ "email").coalesce .vNull
  let name := (u.getPropQ "name").coalesce (JSVal.orElse (.vStr (joinNames first last)) .vNull)
  ⟨first, last, email, name⟩

/-- Lines 192-208 (and 234-250): the bounded per-id user fan-out.  Batches
of 8 run concurrently, but each task only writes the entry of its own id, so
every interleaving equals this sequential fold; a non-success or thrown
fetch leaves the id absent. -/
def usersFanout (orc : JSVal → Fetched) (ids : List JSVal) (m : JMap UserRec) : JMap UserRec :=
  ids.foldl (fun m uid =>
    match orc uid with
    | .err _ _ => m
    | .ok payload => mset m uid (parseUserPayload payload)) m

/-- Lines 211-231: the id-tag lookup fan-out building the tag-to-userId
map.  Same batching remark as `usersFanout`. -/
def tagsFanout (orc : JSVal → Fetched) (tags : List JSVal) (m : JMap JSVal) : JMap JSVal :=
  tags.foldl (fun m tag =>
    match orc tag with
    | .err _ _ => m
    | .ok payload =>
        let row := if (payload.getPropQ "data").isArr
          then headOr (JSVal.asArray (payload.getPropQ "data")) else .vNull
        let uId := (row.getPropQ "userId").coalesce (((row.getPropQ "user").getPropQ "id").coalesce .vNull)
        if uId.nullish then m else mset m tag uId) m

/-- Line 233: tag-discovered userIds not already fetched. -/
def extraUserIds (tagToUserId : JMap JSVal) (userMap : JMap UserRec) : List JSVal :=
  (mvalues tagToUserId).filter (fun uId => !mhas userMap uId)

/-- Lines 253-255: the distinct EVSE ids referenced by the sessions. -/
def wantedEvseIds (sessions : List JSVal) : List JSVal :=
  dedupJS ((sessions.map (fun s => s.getProp "evseId")).filter (fun v => !v.nullish))

/-- Lines 270-277: scan one EVSE page. -/
def evsePageScan (st : JMap JSVal × List JSVal) (evses : List JSVal) : JMap JSVal × List JSVal :=
  evses.foldl (fun st evse =>
    let id := (evse.getPropQ "id").coalesce ((evse.getPropQ "evseId").coalesce .vNull)
    if id.nullish then st
    else if st.2.contains id then (mset st.1 id evse, st.2.filter (fun x => x != id))
    else st) st

/-- Lines 262-280: the global EVSE listing walk (a mandatory stage in this
variant: a non-success page fails the run with stage `evses`). -/
def evseWalk (orc : Nat → Fetched) :
    Nat → JSVal → Nat → JMap JSVal × List JSVal → Except Resp (JMap JSVal)
  | 0, _, _, st => .ok st.1
  | fuel + 1, next, pageIdx, st =>
    if next.truthy && !st.2.isEmpty then
      match orc pageIdx with
      | .err code txt => .error ⟨code, failRespBody "evses" code next txt⟩
      | .ok page =>
          let st' := evsePageScan st (JSVal.asArray (page.getPropQ "data"))
          evseWalk orc fuel (((page.getPropQ "links").getPropQ "next").orElse .vNull) (pageIdx + 1) st'
    else .ok st.1

/-- The EVSE stage. -/
def evseStage (base : String) (u : Upstream) (req : ReqBody) (sessions : List JSVal) :
    Except Resp (JMap JSVal) :=
  evseWalk u.evsePages req.maxPages
    (.vStr (base ++ "/public-api/resources/evses/v1.0?per_page=100&cursor=")) 0
    ([], wantedEvseIds sessions)

/-- The record returned by `extractEvseFields` (lines 283-313). -/
structure EvseFields where
  evseType : JSVal
  connectorStandards : JSVal
  maxPowerKw : JSVal
  deriving DecidableEq

/-- Lines 283-313: EVSE classification, connector standards and max power.
JavaScript would throw on a truthy non-array `connectors` value (`.map` on a
non-array); the model reads such a value as an empty list.  Note the power
branch: when every kW candidate is absent, `pKw` is `null`, `Number(null)`
is 0 and passes `isFinite`, so `maxPowerKw` becomes 0 and the watt branch is
unreachable. -/
def extractEvseFields (evse : JSVal) : EvseFields :=
  if !evse.truthy || !evse.typeofObject then ⟨.vNull, .vNull, .vNull⟩
  else
    let evseType := (evse.getProp "type").coalesce ((evse.getProp "evseType").coalesce
      ((evse.getProp "currentType").coalesce ((evse.getProp "powerType").coalesce
        ((evse.getProp "dcAc").coalesce .vNull))))
    let connectors := (evse.getProp "connectors").orElse ((evse.getProp "connectorList").orElse (.vArr []))
    let connStandards := dedupJS (((JSVal.asArray connectors).map (fun c =>
      (c.getPropQ "standard").orElse ((c.getPropQ "type").orElse
        ((c.getPropQ "connectorType").orElse ((c.getPropQ "format").orElse .vNull))))).filter JSVal.truthy)
    let connectorStandards : JSVal := if connStandards.length ≠ 0 then .vArr connStandards else .vNull
    let pKw := (evse.getProp "maxPowerKw").coalesce ((evse.getProp "powerKw").coalesce
      ((evse.getProp "power").coalesce .vNull))
    let pW := (evse.getProp "maxPowerW").coalesce ((evse.getProp "powerW").coalesce .vNull)
    let maxPowerKw : JSVal :=
      if (toNumber pKw).isFinite then .vNum (toNumber pKw)
      else if (toNumber pW).isFinite then .vNum (JSNum.div (toNumber pW) (.fin 1000))
      else .vNull
    ⟨evseType, connectorStandards, maxPowerKw⟩

/-- Lines 324-327: the userInfo chain `(s.userId && userMap.get(s.userId))
|| (s.idTag && tagToUserId.has(s.idTag) && userMap.get(tagToUserId.get(s.idTag)))
|| null`, as the user record it selects (none for every falsy outcome). -/
def lookupUserInfo (userMap : JMap UserRec) (tagToUserId : JMap JSVal) (s : JSVal) : Option UserRec :=
  let viaTag : Option UserRec :=
    if (s.getProp "idTag").truthy && mhas tagToUserId (s.getProp "idTag") then
      match mget tagToUserId (s.getProp "idTag") with
      | some uId => mget userMap uId
      | none => none
    else none
  if (s.getProp "userId").truthy then
    match mget userMap (s.getProp "userId") with
    | some u => some u
    | none => viaTag
  else viaTag

/-- Lines 329-334: the holder-name priority chain. -/
def holderName (s : JSVal) (userInfo : Option UserRec) : JSVal :=
  let labelPart : JSVal :=
    if (s.getProp "idTagLabel").truthy then .vStr (jsTrim (jsToString (s.getProp "idTagLabel")))
    else s.getProp "idTagLabel"
  let namePart : JSVal := match userInfo with | some u => u.name | none => .vUndefined
  let joinPart : JSVal := match userInfo with
    | some u => .vStr (joinNames u.firstName u.lastName)
    | none => .vStr ""
  let emailPart : JSVal := match userInfo with | some u => u.email | none => .vUndefined
  labelPart.orElse (namePart.orElse (joinPart.orElse (emailPart.orElse .vNull)))

/-- Lines 316-351: build the enriched record for one session. -/
def enrichSession (cpMap locMap evseMap : JMap JSVal) (userMap : JMap UserRec)
    (tagToUserId : JMap JSVal) (s : JSVal) : JSVal :=
  let cpf := extractCpFields (mgetJS cpMap (s.getProp "chargePointId"))
  let locFields := extractLocationFields (mgetJS locMap cpf.locationId)
  let userInfo := lookupUserInfo userMap tagToUserId s
  let ef := extractEvseFields (mgetJS evseMap (s.getProp "evseId"))
  .vObj (s.spreadKvs ++
    [("chargePointName", cpf.chargePointName.coalesce .vNull),
     ("locationId", cpf.locationId.coalesce .vNull),
     ("holderName", holderName s userInfo),
     ("holderEmail", (match userInfo with | some u => u.email | none => .vUndefined).coalesce .vNull),
     ("evseType", ef.evseType),
     ("connectorStandards", ef.connectorStandards),
     ("maxPowerKw", ef.maxPowerKw)] ++
    locFieldsKvs locFields)

/-- The whole handler of `src/api/ampecosessions.js` after the transport
preamble (method check, credential check and body parse are outside the
specified scope). -/
def handler (base : String) (u : Upstream) (req : ReqBody) (keyGen : Nat → String) : Resp :=
  match sessionsStage base u req keyGen with
  | .error e => e
  | .ok sessions =>
    if sessions.length = 0 then ⟨200, okRespBody []⟩
    else
      match cpStage base u req sessions with
      | .error e => e
      | .ok cpMap =>
        match locStage base u req cpMap with
        | .error e => e
        | .ok locMap =>
          let userMap := usersFanout u.userFetch (userIdsOf sessions) []
          let tagToUserId := tagsFanout u.tagFetch (idTagsNeedingLookup sessions) []
          let userMap := usersFanout u.userFetch (extraUserIds tagToUserId userMap) userMap
          match evseStage base u req sessions with
          | .error e => e
          | .ok evseMap =>
              ⟨200, okRespBody (sessions.map (enrichSession cpMap locMap evseMap userMap tagToUserId))⟩

end Ampeco

namespace AmpecoB

/-- The sessions query string of `src/unnamed/part_000` lines 123-131. -/
def sessionsQS (req : ReqBody) : List (String × String) :=
  [("per_page", jsToString (.vNum (JSNum.minN (JSNum.orDefault (toNumber req.per_page) (.fin 100)) (.fin 100)))),
   ("cursor", ""),
   ("withAuthorization", "true")]
  ++ (if req.startedAfter.truthy then [("filter[startedAfter]", jsToString req.startedAfter)] else [])
  ++ (if req.startedBefore.truthy then [("filter[startedBefore]", jsToString req.startedBefore)] else [])
  ++ (if req.endedAfter.truthy then [("filter[endedAfter]", jsToString req.endedAfter)] else [])
  ++ (if req.endedBefore.truthy then [("filter[endedBefore]", jsToString req.endedBefore)] else [])
  ++ (if !req.tariffSnapshotId.nullish then [("filter[tariffSnapshotId]", jsToString req.tariffSnapshotId)] else [])

/-- The first-page sessions URL (line 133). -/
def sessionsUrl (base : String) (req : ReqBody) : String :=
  base ++ "/public-api/resources/sessions/v1.0?" ++ renderQS (sessionsQS req)

/-- Lines 147-151: userId resolution, identical to the sibling variant. -/
def resolvedUserId (s : JSVal) : JSNum :=
  let topUser := toNumber (s.getProp "userId")
  let authUser := toNumber ((s.getProp "authorization").getPropQ "userId")
  if topUser.isFinPos then topUser
  else if authUser.isFinPos then authUser
  else .fin 0

/-- Line 152: `s.idTag ?? s.authorization?.rfidTagUid ?? null`. -/
def resolvedIdTag (s : JSVal) : JSVal :=
  (s.getProp "idTag").coalesce (((s.getProp "authorization").getPropQ "rfidTagUid").coalesce .vNull)

/-- Line 153: `s.energy ?? s.energyConsumption?.total ?? 0`. -/
def whOf (s : JSVal) : JSVal :=
  (s.getProp "energy").coalesce (((s.getProp "energyConsumption").getPropQ "total").coalesce (.vNum (.fin 0)))

/-- Line 154: `Number((wh / 1000).toFixed(3))`. -/
def kWh (s : JSVal) : JSNum :=
  (JSNum.div (toNumber (whOf s)) (.fin 1000)).toFixed3

/-- Line 155: the record pushed for one deduplicated session. -/
def mkSessionRec (s : JSVal) : JSVal :=
  .vObj (s.spreadKvs ++
    [("userIdRaw", (s.getProp "userId").coalesce .vNull),
     ("userId", .vNum (resolvedUserId s)),
     ("idTagRaw", (s.getProp "idTag").coalesce .vNull),
     ("idTag", resolvedIdTag s),
     ("kWh", .vNum (kWh s))])

/-- Lines 144-155 for one record. -/
def collectStep (keyGen : Nat → String) (st : Ampeco.CState) (s : JSVal) : Ampeco.CState :=
  if (s.getProp "id").nullish then
    let sid := keyGen st.ctr
    if st.seen.contains sid then { st with ctr := st.ctr + 1 }
    else { seen := st.seen ++ [sid], ctr := st.ctr + 1, out := st.out ++ [mkSessionRec s] }
  else
    let sid := jsToString (s.getProp "id")
    if st.seen.contains sid then st
    else { st with seen := st.seen ++ [sid], out := st.out ++ [mkSessionRec s] }

/-- The record loop of lines 144-156 over one page of data. -/
def collectData (keyGen : Nat → String) (st : Ampeco.CState) (data : List JSVal) : Ampeco.CState :=
  data.foldl (collectStep keyGen) st

/-- Lines 136-159: the sessions cursor walk of this variant. -/
def sessionsWalk (orc : Nat → Fetched) (keyGen : Nat → String) :
    Nat → JSVal → Nat → Ampeco.CState → Except Resp Ampeco.CState
  | 0, _, _, st => .ok st
  | fuel + 1, next, pageIdx, st =>
    if next.truthy then
      match orc pageIdx with
      | .err code txt => .error ⟨code, failRespBody "sessions" code next txt⟩
      | .ok page =>
          let st' := collectData keyGen st (JSVal.asArray (page.getPropQ "data"))
          sessionsWalk orc keyGen fuel
            (((page.getPropQ "links").getPropQ "next").orElse .vNull) (pageIdx + 1) st'
    else .ok st

/-- The sessions stage of this variant. -/
def sessionsStage (base : String) (u : Upstream) (req : ReqBody) (keyGen : Nat → String) :
    Except Resp (List JSVal) :=
  (sessionsWalk u.sessionPages keyGen req.maxPages (.vStr (sessionsUrl base req)) 0 ⟨[], 0, []⟩).map Ampeco.CState.out

/-- Line 163: the distinct charge-point ids referenced by the sessions. -/
def wantedCpIds (sessions : List JSVal) : List JSVal :=
  dedupJS ((sessions.map (fun s => s.getProp "chargePointId")).filter (fun v => !v.nullish))

/-- The charge-point stage state of this variant: the found charge points,
the still-missing ids, and the EVSE records indexed from embedded payloads
(tier 1 of the equipment fallback). -/
structure CpState where
  cpMap : JMap JSVal
  missingCp : List JSVal
  evseMap : JMap JSVal
  deriving DecidableEq

/-- Lines 179-192: scan one charge-point page; a wanted charge point also
has its embedded `evses` list indexed by id (first record wins). -/
def cpPageScan (st : CpState) (cps : List JSVal) : CpState :=
  cps.foldl (fun st cp =>
    let id := (cp.getPropQ "id").coalesce ((cp.getPropQ "chargePointId").coalesce .vNull)
    if id.nullish then st
    else if st.missingCp.contains id then
      let evseMap := (JSVal.asArray (cp.getPropQ "evses")).foldl (fun m evse =>
        let evseId := (evse.getPropQ "id").coalesce ((evse.getPropQ "evseId").coalesce .vNull)
        if !evseId.nullish && !mhas m evseId then mset m evseId evse else m) st.evseMap
      ⟨mset st.cpMap id cp, st.missingCp.filter (fun x => x != id), evseMap⟩
    else st) st

/-- Lines 171-195: the charge-point listing walk of this variant. -/
def cpWalk (orc : Nat → Fetched) :
    Nat → JSVal → Nat → CpState → Except Resp CpState
  | 0, _, _, st => .ok st
  | fuel + 1, next, pageIdx, st =>
    if next.truthy && !st.missingCp.isEmpty then
      match orc pageIdx with
      | .err code txt => .error ⟨code, failRespBody "charge-points" code next txt⟩
      | .ok page =>
          let st' := cpPageScan st (JSVal.asArray (page.getPropQ "data"))
          cpWalk orc fuel (((page.getPropQ "links").getPropQ "next").orElse .vNull) (pageIdx + 1) st'
    else .ok st

/-- The charge-points stage of this variant. -/
def cpStage (base : String) (u : Upstream) (req : ReqBody) (sessions : List JSVal) :
    Except Resp CpState :=
  cpWalk u.cpPages req.maxPages
    (.vStr (base ++ "/public-api/resources/charge-points/v1.0?per_page=100&cursor=")) 0
    ⟨[], wantedCpIds sessions, []⟩

/-- Lines 198-200: the distinct locationIds of the found charge points. -/
def wantedLocIds (cpMap : JMap JSVal) : List JSVal :=
  dedupJS (((mvalues cpMap).map (fun cp => cp.getPropQ "locationId")).filter (fun v => !v.nullish))

/-- Lines 213-217: scan one locations page. -/
def locPageScan (st : JMap JSVal × List JSVal) (locs : List JSVal) : JMap JSVal × List JSVal :=
  locs.foldl (fun st loc =>
    let id := loc.getPropQ "id"
    if id.nullish then st
    else if st.2.contains id then (mset st.1 id loc, st.2.filter (fun x => x != id))
    else st) st

/-- Lines 205-220: the locations listing walk of this variant. -/
def locWalk (orc : Nat → Fetched) :
    Nat → JSVal → Nat → JMap JSVal × List JSVal → Except Resp (JMap JSVal)
  | 0, _, _, st => .ok st.1
  | fuel + 1, next, pageIdx, st =>
    if next.truthy && !st.2.isEmpty then
      match orc pageIdx with
      | .err code txt => .error ⟨code, failRespBody "locations" code next txt⟩
      | .ok page =>
          let st' := locPageScan st (JSVal.asArray (page.getPropQ "data"))
          locWalk orc fuel (((page.getPropQ "links").getPropQ "next").orElse .vNull) (pageIdx + 1) st'
    else .ok st.1

/-- The locations stage of this variant. -/
def locStage (base : String) (u : Upstream) (req : ReqBody) (cpMap : JMap JSVal) :
    Except Resp (JMap JSVal) :=
  locWalk u.locPages req.maxPages
    (.vStr (base ++ "/public-api/resources/locations/v1.0?per_page=100&cursor=")) 0
    ([], wantedLocIds cpMap)

/-- Lines 222-225: charge-point naming, without a guard (optional chaining
throughout). -/
def extractCpFields (cp : JSVal) : Ampeco.CpFields :=
  ⟨(cp.getPropQ "name").coalesce ((cp.getPropQ "title").coalesce
      ((cp.getPropQ "reference").coalesce ((cp.getPropQ "code").coalesce .vNull))),
   (cp.getPropQ "locationId").coalesce .vNull⟩

/-- Lines 227-237: location attributes, without a guard. -/
def extractLocationFields (loc : JSVal) : Ampeco.LocFields :=
  let name := (loc.getPropQ "name").coalesce ((loc.getPropQ "title").coalesce .vNull)
  let address := (loc.getPropQ "address").coalesce ((loc.getPropQ "siteAddress").coalesce
    (((loc.getPropQ "location").getPropQ "address").coalesce .vNull))
  let line1 := (address.getPropQ "line1").coalesce ((address.getPropQ "addressLine1").coalesce
    ((address.getPropQ "street").coalesce ((address.getPropQ "line").coalesce .vNull)))
  let city := (address.getPropQ "city").coalesce ((address.getPropQ "town").coalesce
    ((address.getPropQ "locality").coalesce .vNull))
  let country := (address.getPropQ "country").coalesce ((address.getPropQ "countryCode").coalesce .vNull)
  let geo := (loc.getPropQ "geoposition").coalesce ((loc.getPropQ "geo").coalesce
    (((loc.getPropQ "location").getPropQ "geoposition").coalesce (.vObj [])))
  let latitude := (geo.getPropQ "latitude").coalesce ((geo.getPropQ "lat").coalesce .vNull)
  let longitude := (geo.getPropQ "longitude").coalesce ((geo.getPropQ "lng").coalesce .vNull)
  ⟨name, line1, city, country, latitude, longitude⟩

/-- Line 240: the distinct finite positive resolved userIds. -/
def userIdsOf (sessions : List JSVal) : List JSVal :=
  dedupJS ((sessions.map (fun s => s.getProp "userId")).filter isFinPosVal)

/-- Lines 241-243: the distinct idTags of sessions with no non-blank label. -/
def idTagsNeedingLookup (sessions : List JSVal) : List JSVal :=
  dedupJS (((sessions.filter (fun s =>
      (!(s.getProp "idTagLabel").truthy || jsTrim (jsToString (s.getProp "idTagLabel")) == "")
      && (s.getProp "idTag").truthy)).map (fun s => s.getProp "idTag")))

/-- Lines 247-258: `fetchUser`, decoding a payload into the cached user
attributes. -/
def parseUserPayload (payload : JSVal) : Ampeco.UserRec :=
  let u := (payload.getPropQ "data").coalesce payload
  let first := (u.getPropQ "firstName").coalesce ((u.getPropQ "firstname").coalesce .vNull)
  let last := (u.getPropQ "lastName").coalesce ((u.getPropQ "lastname").coalesce .vNull)
  let email := (u.getPropQ "email").coalesce .vNull
  let name := (u.getPropQ "name").coalesce (JSVal.orElse (.vStr (Ampeco.joinNames first last)) .vNull)
  ⟨first, last, email, name⟩

/-- Lines 259-262 and 281-283: the bounded user fan-out of this variant. -/
def usersFanout (orc : JSVal → Fetched) (ids : List JSVal) (m : JMap Ampeco.UserRec) : JMap Ampeco.UserRec :=
  ids.foldl (fun m uid =>
    match orc uid with
    | .err _ _ => m
    | .ok payload => mset m uid (parseUserPayload payload)) m

/-- Lines 265-279: the id-tag lookup fan-out of this variant. -/
def tagsFanout (orc : JSVal → Fetched) (tags : List JSVal) (m : JMap JSVal) : JMap JSVal :=
  tags.foldl (fun m tag =>
    match orc tag with
    | .err _ _ => m
    | .ok payload =>
        let row := if (payload.getPropQ "data").isArr
          then headOr (JSVal.asArray (payload.getPropQ "data")) else .vNull
        let uId := (row.getPropQ "userId").coalesce (((row.getPropQ "user").getPropQ "id").coalesce .vNull)
        if uId.nullish then m else mset m tag uId) m

/-- Line 280: tag-discovered userIds not already fetched. -/
def extraUserIds (tagToUserId : JMap JSVal) (userMap : JMap Ampeco.UserRec) : List JSVal :=
  (mvalues tagToUserId).filter (fun uId => !mhas userMap uId)

/-- Line 291: the distinct EVSE ids referenced by the sessions. -/
def wantedEvseIds (sessions : List JSVal) : List JSVal :=
  dedupJS ((sessions.map (fun s => s.getProp "evseId")).filter (fun v => !v.nullish))

/-- Line 294: the wanted ids not resolved by tier 1 (embedded payloads). -/
def initialMissingEvse (wanted : List JSVal) (evseMap : JMap JSVal) : List JSVal :=
  wanted.filter (fun id => !mhas evseMap id)

/-- Line 296: the distinct charge-point ids used for the tier-2 sub-listing
walks. -/
def cpIdsForEvse (sessions : List JSVal) : List JSVal :=
  dedupJS ((sessions.map (fun s => s.getProp "chargePointId")).filter (fun v => !v.nullish))

/-- Lines 302-317: the per-charge-point EVSE sub-listing walk for one
charge point.  Every id found is stored (overwriting any earlier entry) and
removed from the missing set; a non-success page breaks out without failing
the run.  The source loop has no page cap, so the page budget is an
explicit fuel argument here. -/
def cpEvseSubWalk (orc : Nat → Fetched) :
    Nat → JSVal → Nat → JMap JSVal × List JSVal → JMap JSVal × List JSVal
  | 0, _, _, st => st
  | fuel + 1, url, pageIdx, st =>
    if url.truthy && !st.2.isEmpty then
      match orc pageIdx with
      | .err _ _ => st
      | .ok payload =>
          let st' := (JSVal.asArray (payload.getPropQ "data")).foldl (fun st e =>
            let id := (e.getPropQ "id").coalesce ((e.getPropQ "evseId").coalesce .vNull)
            if id.nullish then st
            else (mset st.1 id e, st.2.filter (fun x => x != id))) st
          cpEvseSubWalk orc fuel (((payload.getPropQ "links").getPropQ "next").orElse .vNull)
            (pageIdx + 1) st'
    else st

/-- Lines 298-320: tier 2, the per-charge-point sub-listing walks.  The
source runs batches of 6 concurrently; each walk touches only the shared
map and missing set, and the claims proved below hold of this sequential
linearization (a walk entered with nothing missing issues no request at
all, because its loop condition fails on the first check). -/
def tier2 (orc : JSVal → Nat → Fetched) (fuel2 : Nat) (base : String) :
    List JSVal → JMap JSVal × List JSVal → JMap JSVal × List JSVal
  | [], st => st
  | cpId :: rest, st =>
    if st.2.isEmpty then st
    else tier2 orc fuel2 base rest
      (cpEvseSubWalk (orc cpId) fuel2
        (.vStr (base ++ "/public-api/resources/charge-points/v1.0/" ++ jsToString cpId ++ "/evses?per_page=100&cursor=")) 0 st)

/-- Lines 326-340: the global v2.0 EVSE listing walk (tier 3).  Only ids
still missing are taken; a non-success page breaks out without failing the
run. -/
def tier3Walk (orc : Nat → Fetched) :
    Nat → JSVal → Nat → JMap JSVal × List JSVal → JMap JSVal × List JSVal
  | 0, _, _, st => st
  | fuel + 1, url, pageIdx, st =>
    if url.truthy && !st.2.isEmpty then
      match orc pageIdx with
      | .err _ _ => st
      | .ok payload =>
          let st' := (JSVal.asArray (payload.getPropQ "data")).foldl (fun st e =>
            let id := (e.getPropQ "id").coalesce ((e.getPropQ "evseId").coalesce .vNull)
            if !id.nullish && st.2.contains id then
              (mset st.1 id e, st.2.filter (fun x => x != id))
            else st) st
          tier3Walk orc fuel (((payload.getPropQ "links").getPropQ "next").orElse .vNull)
            (pageIdx + 1) st'
    else st

/-- Lines 323-341: tier 3 runs only when something is still missing. -/
def tier3 (orc : Nat → Fetched) (maxPages : Nat) (base : String)
    (st : JMap JSVal × List JSVal) : JMap JSVal × List JSVal :=
  if st.2.isEmpty then st
  else tier3Walk orc maxPages (.vStr (base ++ "/public-api/resources/evses/v2.0?per_page=100&cursor=")) 0 st

/-- Lines 343-361: EVSE extraction, identical to the sibling variant
(including the guard and the dead watt branch). -/
def extractEvseFields (evse : JSVal) : Ampeco.EvseFields :=
  if !evse.truthy || !evse.typeofObject then ⟨.vNull, .vNull, .vNull⟩
  else
    let evseType := (evse.getProp "type").coalesce ((evse.getProp "evseType").coalesce
      ((evse.getProp "currentType").coalesce ((evse.getProp "powerType").coalesce
        ((evse.getProp "dcAc").coalesce .vNull))))
    let connectors := (evse.getProp "connectors").orElse ((evse.getProp "connectorList").orElse (.vArr []))
    let connStandards := dedupJS (((JSVal.asArray connectors).map (fun c =>
      (c.getPropQ "standard").orElse ((c.getPropQ "type").orElse
        ((c.getPropQ "connectorType").orElse ((c.getPropQ "format").orElse .vNull))))).filter JSVal.truthy)
    let connectorStandards : JSVal := if connStandards.length ≠ 0 then .vArr connStandards else .vNull
    let pKw := (evse.getProp "maxPowerKw").coalesce ((evse.getProp "powerKw").coalesce
      ((evse.getProp "power").coalesce .vNull))
    let pW := (evse.getProp "maxPowerW").coalesce ((evse.getProp "powerW").coalesce .vNull)
    let maxPowerKw : JSVal :=
      if (toNumber pKw).isFinite then .vNum (toNumber pKw)
      else if (toNumber pW).isFinite then .vNum (JSNum.div (toNumber pW) (.fin 1000))
      else .vNull
    ⟨evseType, connectorStandards, maxPowerKw⟩

/-- Lines 370-372: the userInfo chain of this variant, with no tag branch:
`(s.userId && userMap.get(s.userId)) || null`. -/
def lookupUserInfo (userMap : JMap Ampeco.UserRec) (s : JSVal) : Option Ampeco.UserRec :=
  if (s.getProp "userId").truthy then mget userMap (s.getProp "userId")
  else none

/-- Lines 374-379: the holder-name priority chain of this variant. -/
def holderName (s : JSVal) (userInfo : Option Ampeco.UserRec) : JSVal :=
  let labelPart : JSVal :=
    if (s.getProp "idTagLabel").truthy then .vStr (jsTrim (jsToString (s.getProp "idTagLabel")))
    else s.getProp "idTagLabel"
  let namePart : JSVal := match userInfo with | some u => u.name | none => .vUndefined
  let joinPart : JSVal := match userInfo with
    | some u => .vStr (Ampeco.joinNames u.firstName u.lastName)
    | none => .vStr ""
  let emailPart : JSVal := match userInfo with | some u => u.email | none => .vUndefined
  labelPart.orElse (namePart.orElse (joinPart.orElse (emailPart.orElse .vNull)))

/-- Lines 364-395: build the enriched record for one session. -/
def enrichSession (cpMap locMap evseMap : JMap JSVal) (userMap : JMap Ampeco.UserRec) (s : JSVal) : JSVal :=
  let cpf := extractCpFields (mgetJS cpMap (s.getProp "chargePointId"))
  let locFields := extractLocationFields (mgetJS locMap cpf.locationId)
  let userInfo := lookupUserInfo userMap s
  let ef := extractEvseFields (mgetJS evseMap (s.getProp "evseId"))
  .vObj (s.spreadKvs ++
    [("chargePointName", cpf.chargePointName.coalesce .vNull),
     ("locationId", cpf.locationId.coalesce .vNull),
     ("holderName", holderName s userInfo),
     ("holderEmail", (match userInfo with | some u => u.email | none => .vUndefined).coalesce .vNull),
     ("evseType", ef.evseType),
     ("connectorStandards", ef.connectorStandards),
     ("maxPowerKw", ef.maxPowerKw)] ++
    Ampeco.locFieldsKvs locFields)

/-- The whole handler of the second program in `src/unnamed/part_000` after
the transport preamble.  `fuel2` is the page budget of the uncapped tier-2
sub-listing walks (see `cpEvseSubWalk`). -/
def handler (base : String) (u : Upstream) (req : ReqBody) (keyGen : Nat → String) (fuel2 : Nat) : Resp :=
  match sessionsStage base u req keyGen with
  | .error e => e
  | .ok sessions =>
    if sessions.length = 0 then ⟨200, okRespBody []⟩
    else
      match cpStage base u req sessions with
      | .error e => e
      | .ok cpSt =>
        match locStage base u req cpSt.cpMap with
        | .error e => e
        | .ok locMap =>
          let userMap := usersFanout u.userFetch (userIdsOf sessions) []
          let tagToUserId := tagsFanout u.tagFetch (idTagsNeedingLookup sessions) []
          let userMap := usersFanout u.userFetch (extraUserIds tagToUserId userMap) userMap
          let missing0 := initialMissingEvse (wantedEvseIds sessions) cpSt.evseMap
          let st2 := tier2 u.cpEvsePages fuel2 base (cpIdsForEvse sessions) (cpSt.evseMap, missing0)
          let st3 := tier3 u.evse2Pages req.maxPages base st2
          ⟨200, okRespBody (sessions.map (enrichSession cpSt.cpMap locMap st3.1 userMap))⟩

end AmpecoB

/-! Claim-facing definitions: predicates used to state the claims, the two
functions written from the claim text for comparison with the code, and the
concrete fixtures the witnesses evaluate on. -/

/-- Written from the words of claim C1 (not from the source): prefer the
top-level value when it is a finite positive INTEGER, else the
authorization value when it is a finite positive integer, else 0. -/
def claimC1UserId (s : JSVal) : JSNum :=
  let top := toNumber (s.getProp "userId")
  let auth := toNumber ((s.getProp "authorization").getPropQ "userId")
  if top.isFinPosInt then top
  else if auth.isFinPosInt then auth
  else .fin 0

/-- The amended claim C1 (written from the amended words: finite positive
NUMBER after coercion, as the code tests, instead of integer). -/
def specC1Amended (s : JSVal) : JSNum :=
  let top := toNumber (s.getProp "userId")
  let auth := toNumber ((s.getProp "authorization").getPropQ "userId")
  if top.isFinPos then top
  else if auth.isFinPos then auth
  else .fin 0

/-- Written from the words of claim C2: the energy field divided by 1000
when present, else the nested cumulative total divided by 1000, else 0, in
each case rounded to 3 decimal places. -/
def claimC2kWh (s : JSVal) : JSNum :=
  if !(s.getProp "energy").nullish then
    (JSNum.div (toNumber (s.getProp "energy")) (.fin 1000)).toFixed3
  else if !((s.getProp "energyConsumption").getPropQ "total").nullish then
    (JSNum.div (toNumber ((s.getProp "energyConsumption").getPropQ "total")) (.fin 1000)).toFixed3
  else .fin 0

/-- Whether a record carries a non-nullish id whose string form is `k` (the
deduplication key the collector computes for it). -/
def hasIdKey (k : String) (r : JSVal) : Bool :=
  !(r.getProp "id").nullish && (jsToString (r.getProp "id") == k)

/-- Whether a record lacks a stable identifier. -/
def noIdKey (r : JSVal) : Bool :=
  (r.getProp "id").nullish

/-- The collected session list produced by the record loop over a sequence
of already-decoded pages (what the sessions walk accumulates from the pages
it fetches). -/
def collectPages (keyGen : Nat → String) (pages : List (List JSVal)) : List JSVal :=
  (pages.foldl (Ampeco.collectData keyGen) ⟨[], 0, []⟩).out

/-- The thirteen attribute keys the aggregator merge writes after spreading
the session record (so the keys whose prior value on the session it can
overwrite). -/
def enrichKeys : List String :=
  ["chargePointName", "locationId", "holderName", "holderEmail", "evseType",
   "connectorStandards", "maxPowerKw", "locationName", "addressLine1", "city",
   "country", "latitude", "longitude"]

/-- Replace the two per-id fan-out oracles of an upstream, leaving every
listing oracle unchanged. -/
def setFanouts (u : Upstream) (uf tf : JSVal → Fetched) : Upstream :=
  { u with userFetch := uf, tagFetch := tf }

/-- Fixture: a base URL. -/
def base0 : String := "https://cp.example"

/-- Fixture: a request with no filters and a page cap of 10. -/
def reqW : ReqBody := ⟨.vUndefined, .vUndefined, .vUndefined, .vUndefined, .vUndefined, .vUndefined, 10⟩

/-- Fixture: a fresh-key generator producing pairwise-distinct strings of
the letter f, disjoint from every id the fixtures use. -/
def kgW : Nat → String := fun n => String.mk (List.replicate (n + 1) 'f')

/-- Fixture: a decoded final page holding the given records. -/
def pageOf (xs : List JSVal) : JSVal :=
  .vObj [("data", .vArr xs), ("links", .vObj [("next", .vNull)])]

/-- Fixture: a successful empty final page. -/
def okEmpty : Fetched := .ok (pageOf [])

/-- Fixture: an upstream whose every endpoint returns an empty final page. -/
def uOk : Upstream :=
  ⟨fun _ => okEmpty, fun _ => okEmpty, fun _ => okEmpty, fun _ => okEmpty,
   fun _ => okEmpty, fun _ => okEmpty, fun _ _ => okEmpty, fun _ => okEmpty⟩

/-- Fixture: a session record referencing one charge point and one EVSE. -/
def sess1 : JSVal :=
  .vObj [("id", .vStr "s1"), ("chargePointId", .vStr "cp1"), ("evseId", .vStr "e1"),
         ("userId", .vNum (.fin 5))]

/-- Fixture: an upstream whose sessions listing fails at the first page. -/
def uFailSess : Upstream := { uOk with sessionPages := fun _ => .err 503 "boom" }

/-- Fixture: an upstream with one session whose charge-point listing fails. -/
def uFailCp : Upstream :=
  { uOk with sessionPages := fun _ => .ok (pageOf [sess1]),
             cpPages := fun _ => .err 500 "cpboom" }

/-- Fixture: an upstream with one session, all listings fine, both per-id
fan-out endpoints failing every request. -/
def uFanFail : Upstream :=
  { uOk with sessionPages := fun _ => .ok (pageOf [sess1]),
             userFetch := fun _ => .err 500 "ubroke",
             tagFetch := fun _ => .err 500 "tbroke" }

/-- Fixture for C1: top-level 7.5, authorization 9. -/
def c1Half : JSVal :=
  .vObj [("userId", .vNum (.fin (15 / 2))), ("authorization", .vObj [("userId", .vNum (.fin 9))])]

/-- Fixture for C1: top-level 7, authorization 9. -/
def c1Top7 : JSVal :=
  .vObj [("userId", .vNum (.fin 7)), ("authorization", .vObj [("userId", .vNum (.fin 9))])]

/-- Fixture for C1: top-level 0, authorization 9. -/
def c1Top0 : JSVal :=
  .vObj [("userId", .vNum (.fin 0)), ("authorization", .vObj [("userId", .vNum (.fin 9))])]

/-- Fixture for C1: neither identity present. -/
def c1None : JSVal := .vObj [("x", .vNum (.fin 1))]

/-- Fixture for C1: both non-positive. -/
def c1Neg : JSVal :=
  .vObj [("userId", .vNum (.fin (-3))), ("authorization", .vObj [("userId", .vNum (.fin 0))])]

/-- Fixture for C2: energy 12345 watt-hours. -/
def c2E : JSVal := .vObj [("energy", .vNum (.fin 12345))]

/-- Fixture for C2: energy absent, nested total 500. -/
def c2T : JSVal := .vObj [("energyConsumption", .vObj [("total", .vNum (.fin 500))])]

/-- Fixture for C2: neither present. -/
def c2N : JSVal := .vObj []

/-- Fixture for C3: a record with id a (also used as the key). -/
def c3A : JSVal := .vObj [("id", .vStr "a")]

/-- Fixture for C3: a second record with the same id on another page. -/
def c3A2 : JSVal := .vObj [("id", .vStr "a"), ("energy", .vNum (.fin 7))]

/-- Fixture for C3: a record lacking a stable identifier. -/
def c3NoId : JSVal := .vObj [("x", .vNum (.fin 1))]

/-- Fixture for C3: the page sequence. -/
def c3Pages : List (List JSVal) := [[c3A, c3NoId, c3NoId], [c3A2]]

/-- Fixture for C8: an upstream session record that happens to carry a
`city` field of its own. -/
def c8raw : JSVal := .vObj [("id", .vStr "s1"), ("city", .vStr "Kaunas")]

/-- Fixture for C6: the embedded (tier-1) EVSE record for id e1. -/
def evseA : JSVal := .vObj [("id", .vStr "e1"), ("type", .vStr "AC-embedded")]

/-- Fixture for C6: the sub-listing (tier-2) record for the same id e1. -/
def evseB : JSVal := .vObj [("id", .vStr "e1"), ("type", .vStr "AC-sublisting")]

/-- Fixture for C6: a tier-2 oracle whose sub-listing serves `evseB`. -/
def orcC6 : JSVal → Nat → Fetched := fun _ _ => .ok (pageOf [evseB])

/-- Fixture for C7: a session referencing an EVSE nothing resolves. -/
def sessE : JSVal := .vObj [("id", .vStr "s1"), ("evseId", .vStr "e9")]

/-- Fixture for C7: sessions fine, the global v2.0 EVSE fallback listing
returns 404. -/
def uC7 : Upstream :=
  { uOk with sessionPages := fun _ => .ok (pageOf [sessE]),
             evse2Pages := fun _ => .err 404 "nope" }

/-- Fixture for C5: a session with a non-blank label. -/
def c5Lbl : JSVal := .vObj [("idTagLabel", .vStr " Bob ")]

/-- Fixture for C5: a fully populated resolved user. -/
def c5User : Ampeco.UserRec := ⟨.vStr "Ann", .vStr "Lee", .vStr "ann@example.com", .vStr "Ann Lee"⟩

/-- Fixture for C5: a user with no explicit name. -/
def c5NoName : Ampeco.UserRec := ⟨.vStr "Ann", .vStr "Lee", .vStr "ann@example.com", .vNull⟩

/-- Fixture for C5: a user with only an email. -/
def c5OnlyMail : Ampeco.UserRec := ⟨.vNull, .vNull, .vStr "ann@example.com", .vNull⟩

/-! Helper lemmas. -/

/-- A key absent from the appended bindings reads through to the original
object body. -/
theorem getKvs_append_nomem (xs ys : List (String × JSVal)) (k : String)
    (h : k ∉ ys.map Prod.fst) : JSVal.getKvs (xs ++ ys) k = JSVal.getKvs xs k := by
  unfold JSVal.getKvs
  rw [List.reverse_append, List.find?_append]
  have hnone : ys.reverse.find? (fun p => p.1 == k) = none := by
    rw [List.find?_eq_none]
    intro p hp hbeq
    apply h
    have hk : p.1 = k := by simpa using hbeq
    exact hk ▸ List.mem_map_of_mem Prod.fst (List.mem_reverse.mp hp)
  rw [hnone]
  rfl

/-! Claim C1. -/

/-- C1, counterexample to the claim as stated: with a top-level userId of
7.5 (a finite positive number that is not an integer) and an authorization
userId of 9, the claim resolves to 9 but the code keeps 7.5. -/
theorem claim_C1_cex :
    claimC1UserId c1Half = .fin 9
    ∧ Ampeco.resolvedUserId c1Half = .fin (15 / 2)
    ∧ Ampeco.resolvedUserId c1Half ≠ claimC1UserId c1Half := by
  with_unfolding_all decide

/-- C1 (amended: finite positive number after coercion, instead of finite
positive integer): the resolved userId stored on every collected record
prefers a coerced finite positive top-level userId, else a coerced finite
positive authorization userId, else the zero sentinel; top 7 with auth 9
gives 7, top 0 with auth 9 gives 9, neither present gives 0, both
non-positive gives 0; both variants resolve identically. -/
theorem claim_C1 (s : JSVal) (h : s.isObj = true) :
    (Ampeco.mkSessionRec s).getProp "userId" = .vNum (Ampeco.resolvedUserId s)
    ∧ Ampeco.resolvedUserId s = specC1Amended s
    ∧ AmpecoB.resolvedUserId s = Ampeco.resolvedUserId s
    ∧ Ampeco.resolvedUserId c1Top7 = .fin 7
    ∧ Ampeco.resolvedUserId c1Top0 = .fin 9
    ∧ Ampeco.resolvedUserId c1None = .fin 0
    ∧ Ampeco.resolvedUserId c1Neg = .fin 0 := by
  refine ⟨?_, rfl, rfl, ?_, ?_, ?_, ?_⟩
  · simp [Ampeco.mkSessionRec, JSVal.getProp, JSVal.getKvs, List.reverse_append]
  all_goals with_unfolding_all decide

/-- C1 witness at a concrete record. -/
theorem claim_C1_witness :
    JSVal.isObj c1Top7 = true
    ∧ ((Ampeco.mkSessionRec c1Top7).getProp "userId" = .vNum (Ampeco.resolvedUserId c1Top7)
        ∧ Ampeco.resolvedUserId c1Top7 = specC1Amended c1Top7
        ∧ AmpecoB.resolvedUserId c1Top7 = Ampeco.resolvedUserId c1Top7
        ∧ Ampeco.resolvedUserId c1Top7 = .fin 7
        ∧ Ampeco.resolvedUserId c1Top0 = .fin 9
        ∧ Ampeco.resolvedUserId c1None = .fin 0
        ∧ Ampeco.resolvedUserId c1Neg = .fin 0) :=
  ⟨by with_unfolding_all decide, claim_C1 c1Top7 (by with_unfolding_all decide)⟩

/-! Claim C2. -/

/-- C2: the kWh stored on every collected record is the energy field (else
the nested cumulative total, else 0) divided by 1000 and rounded to 3
decimal places; 12345 gives 12.345, a nested 500 gives 0.5, neither gives
0; both variants agree. -/
theorem claim_C2 (s : JSVal) (h : s.isObj = true) :
    (Ampeco.mkSessionRec s).getProp "kWh" = .vNum (Ampeco.kWh s)
    ∧ Ampeco.kWh s = claimC2kWh s
    ∧ AmpecoB.kWh s = Ampeco.kWh s
    ∧ Ampeco.kWh c2E = .fin (12345 / 1000)
    ∧ Ampeco.kWh c2T = .fin (1 / 2)
    ∧ Ampeco.kWh c2N = .fin 0 := by
  refine ⟨?_, ?_, rfl, ?_, ?_, ?_⟩
  · simp [Ampeco.mkSessionRec, JSVal.getProp, JSVal.getKvs, List.reverse_append]
  · unfold Ampeco.kWh Ampeco.whOf claimC2kWh JSVal.coalesce
    by_cases h1 : (s.getProp "energy").nullish = true
    · by_cases h2 : ((s.getProp "energyConsumption").getPropQ "total").nullish = true
      · simp only [h1, h2, Bool.not_true, if_true, if_false, Bool.false_eq_true]
        with_unfolding_all decide
      · simp [h1, h2]
    · simp [h1]
  · have h0 : Ampeco.whOf c2E = .vNum (.fin 12345) := rfl
    unfold Ampeco.kWh
    rw [h0]
    norm_num [toNumber, JSNum.div, JSNum.toFixed3, JSNum.round3]
  · have h0 : Ampeco.whOf c2T = .vNum (.fin 500) := rfl
    unfold Ampeco.kWh
    rw [h0]
    norm_num [toNumber, JSNum.div, JSNum.toFixed3, JSNum.round3]
  · have h0 : Ampeco.whOf c2N = .vNum (.fin 0) := rfl
    unfold Ampeco.kWh
    rw [h0]
    norm_num [toNumber, JSNum.div, JSNum.toFixed3, JSNum.round3]

/-- C2 witness at a concrete record. -/
theorem claim_C2_witness :
    JSVal.isObj c2E = true
    ∧ ((Ampeco.mkSessionRec c2E).getProp "kWh" = .vNum (Ampeco.kWh c2E)
        ∧ Ampeco.kWh c2E = claimC2kWh c2E
        ∧ AmpecoB.kWh c2E = Ampeco.kWh c2E
        ∧ Ampeco.kWh c2E = .fin (12345 / 1000)
        ∧ Ampeco.kWh c2T = .fin (1 / 2)
        ∧ Ampeco.kWh c2N = .fin 0) :=
  ⟨by with_unfolding_all decide, claim_C2 c2E (by with_unfolding_all decide)⟩

/-! Claim C9. -/

/-- C9: on null, undefined and key-less objects the extractors return null
attributes, except that `extractEvseFields` returns `maxPowerKw = 0` (not
null) for an object with no power fields, because `Number(null)` is 0 and
passes the finiteness test; for the same reason a watt-only object also
yields 0 instead of the converted 50. -/
theorem claim_C9 :
    (Ampeco.extractEvseFields (.vObj [])).maxPowerKw = .vNum (.fin 0)
    ∧ (Ampeco.extractEvseFields (.vObj [("maxPowerW", .vNum (.fin 50000))])).maxPowerKw = .vNum (.fin 0)
    ∧ Ampeco.extractEvseFields .vNull = ⟨.vNull, .vNull, .vNull⟩
    ∧ Ampeco.extractEvseFields .vUndefined = ⟨.vNull, .vNull, .vNull⟩
    ∧ (Ampeco.extractEvseFields (.vObj [])).evseType = .vNull
    ∧ (Ampeco.extractEvseFields (.vObj [])).connectorStandards = .vNull
    ∧ Ampeco.extractLocationFields .vNull = ⟨.vNull, .vNull, .vNull, .vNull, .vNull, .vNull⟩
    ∧ Ampeco.extractLocationFields .vUndefined = ⟨.vNull, .vNull, .vNull, .vNull, .vNull, .vNull⟩
    ∧ Ampeco.extractLocationFields (.vObj [("foo", .vNum (.fin 1))]) = ⟨.vNull, .vNull, .vNull, .vNull, .vNull, .vNull⟩
    ∧ Ampeco.extractCpFields .vNull = ⟨.vNull, .vNull⟩
    ∧ Ampeco.extractCpFields (.vObj []) = ⟨.vNull, .vNull⟩
    ∧ AmpecoB.extractEvseFields (.vObj []) = Ampeco.extractEvseFields (.vObj [])
    ∧ AmpecoB.extractLocationFields .vNull = ⟨.vNull, .vNull, .vNull, .vNull, .vNull, .vNull⟩ := by
  with_unfolding_all decide

/-! Claim C5. -/

/-- A truthy value short-circuits the or operator. -/
theorem orElse_of_truthy (a b : JSVal) (h : a.truthy = true) : a.orElse b = a := by
  simp [JSVal.orElse, h]

/-- A falsy value falls through the or operator. -/
theorem orElse_of_falsy (a b : JSVal) (h : a.truthy = false) : a.orElse b = b := by
  simp [JSVal.orElse, h]

/-- If the label is absent/falsy, or blank after trimming, the first link
of the holder-name chain is falsy. -/
theorem labelPart_falsy (s : JSVal)
    (hbl : (s.getProp "idTagLabel").truthy = false ∨ jsTrim (jsToString (s.getProp "idTagLabel")) = "") :
    (if (s.getProp "idTagLabel").truthy then
        JSVal.vStr (jsTrim (jsToString (s.getProp "idTagLabel")))
      else s.getProp "idTagLabel").truthy = false := by
  rcases hbl with hbl | hbl
  · simp [hbl]
  · cases htr : (s.getProp "idTagLabel").truthy
    · simp [htr]
    · simp [htr, hbl, JSVal.truthy]

/-- C5: the holder name of every enriched session follows the claimed
priority: a non-blank (after trimming) label always wins, for any resolved
user; under a blank or absent label, a truthy stored user name wins, else a
non-empty first/last join, else a truthy email, else null; and with no
resolved user the result is null.  The two variants share the chain. -/
theorem claim_C5 :
    (∀ cpM locM evM uM tagM s,
      (Ampeco.enrichSession cpM locM evM uM tagM s).getProp "holderName"
        = Ampeco.holderName s (Ampeco.lookupUserInfo uM tagM s))
    ∧ (∀ s ui lbl, s.getProp "idTagLabel" = .vStr lbl → jsTrim lbl ≠ "" →
        Ampeco.holderName s ui = .vStr (jsTrim lbl))
    ∧ (∀ s u, ((s.getProp "idTagLabel").truthy = false ∨ jsTrim (jsToString (s.getProp "idTagLabel")) = "") →
        u.name.truthy = true → Ampeco.holderName s (some u) = u.name)
    ∧ (∀ s u, ((s.getProp "idTagLabel").truthy = false ∨ jsTrim (jsToString (s.getProp "idTagLabel")) = "") →
        u.name.truthy = false → Ampeco.joinNames u.firstName u.lastName ≠ "" →
        Ampeco.holderName s (some u) = .vStr (Ampeco.joinNames u.firstName u.lastName))
    ∧ (∀ s u, ((s.getProp "idTagLabel").truthy = false ∨ jsTrim (jsToString (s.getProp "idTagLabel")) = "") →
        u.name.truthy = false → Ampeco.joinNames u.firstName u.lastName = "" →
        u.email.truthy = true → Ampeco.holderName s (some u) = u.email)
    ∧ (∀ s u, ((s.getProp "idTagLabel").truthy = false ∨ jsTrim (jsToString (s.getProp "idTagLabel")) = "") →
        u.name.truthy = false → Ampeco.joinNames u.firstName u.lastName = "" →
        u.email.truthy = false → Ampeco.holderName s (some u) = .vNull)
    ∧ (∀ s, ((s.getProp "idTagLabel").truthy = false ∨ jsTrim (jsToString (s.getProp "idTagLabel")) = "") →
        Ampeco.holderName s none = .vNull)
    ∧ (∀ s ui, AmpecoB.holderName s ui = Ampeco.holderName s ui) := by
  refine ⟨?_, ?_, ?_, ?_, ?_, ?_, ?_, fun s ui => rfl⟩
  · intro cpM locM evM uM tagM s
    simp [Ampeco.enrichSession, JSVal.getProp, JSVal.getKvs, List.reverse_append,
      Ampeco.locFieldsKvs]
  · intro s ui lbl hl ht
    have hlne : lbl ≠ "" := fun h => ht (by rw [h]; rfl)
    show ((if (s.getProp "idTagLabel").truthy then
        JSVal.vStr (jsTrim (jsToString (s.getProp "idTagLabel")))
      else s.getProp "idTagLabel").orElse _) = _
    rw [hl]
    have htr : (JSVal.vStr lbl).truthy = true := by simp [JSVal.truthy, hlne]
    rw [if_pos htr]
    show (JSVal.vStr (jsTrim lbl)).orElse _ = _
    exact orElse_of_truthy _ _ (by simp [JSVal.truthy, ht])
  · intro s u hbl hn
    show ((if (s.getProp "idTagLabel").truthy then
        JSVal.vStr (jsTrim (jsToString (s.getProp "idTagLabel")))
      else s.getProp "idTagLabel").orElse
      (u.name.orElse ((JSVal.vStr (Ampeco.joinNames u.firstName u.lastName)).orElse
        (u.email.orElse .vNull)))) = u.name
    rw [orElse_of_falsy _ _ (labelPart_falsy s hbl), orElse_of_truthy _ _ hn]
  · intro s u hbl hn hj
    show ((if (s.getProp "idTagLabel").truthy then
        JSVal.vStr (jsTrim (jsToString (s.getProp "idTagLabel")))
      else s.getProp "idTagLabel").orElse
      (u.name.orElse ((JSVal.vStr (Ampeco.joinNames u.firstName u.lastName)).orElse
        (u.email.orElse .vNull)))) = .vStr (Ampeco.joinNames u.firstName u.lastName)
    rw [orElse_of_falsy _ _ (labelPart_falsy s hbl), orElse_of_falsy _ _ hn,
      orElse_of_truthy _ _ (by simp [JSVal.truthy, hj])]
  · intro s u hbl hn hj he
    show ((if (s.getProp "idTagLabel").truthy then
        JSVal.vStr (jsTrim (jsToString (s.getProp "idTagLabel")))
      else s.getProp "idTagLabel").orElse
      (u.name.orElse ((JSVal.vStr (Ampeco.joinNames u.firstName u.lastName)).orElse
        (u.email.orElse .vNull)))) = u.email
    rw [orElse_of_falsy _ _ (labelPart_falsy s hbl), orElse_of_falsy _ _ hn, hj,
      orElse_of_falsy _ _ (by simp [JSVal.truthy]), orElse_of_truthy _ _ he]
  · intro s u hbl hn hj he
    show ((if (s.getProp "idTagLabel").truthy then
        JSVal.vStr (jsTrim (jsToString (s.getProp "idTagLabel")))
      else s.getProp "idTagLabel").orElse
      (u.name.orElse ((JSVal.vStr (Ampeco.joinNames u.firstName u.lastName)).orElse
        (u.email.orElse .vNull)))) = .vNull
    rw [orElse_of_falsy _ _ (labelPart_falsy s hbl), orElse_of_falsy _ _ hn, hj,
      orElse_of_falsy _ _ (by simp [JSVal.truthy]), orElse_of_falsy _ _ he]
  · intro s hbl
    show ((if (s.getProp "idTagLabel").truthy then
        JSVal.vStr (jsTrim (jsToString (s.getProp "idTagLabel")))
      else s.getProp "idTagLabel").orElse
      (JSVal.vUndefined.orElse ((JSVal.vStr "").orElse (JSVal.vUndefined.orElse .vNull)))) = .vNull
    rw [orElse_of_falsy _ _ (labelPart_falsy s hbl), orElse_of_falsy _ _ (by rfl),
      orElse_of_falsy _ _ (by rfl), orElse_of_falsy _ _ (by rfl)]

/-- C5 witness: the label wins over a fully populated user; each later tier
is reached on concrete users. -/
theorem claim_C5_witness :
    ((Ampeco.enrichSession [] [] [] [] [] c5Lbl).getProp "holderName"
        = Ampeco.holderName c5Lbl (Ampeco.lookupUserInfo [] [] c5Lbl))
    ∧ Ampeco.holderName c5Lbl (some c5User) = .vStr "Bob"
    ∧ Ampeco.holderName (.vObj []) (some c5User) = .vStr "Ann Lee"
    ∧ Ampeco.holderName (.vObj []) (some c5NoName) = .vStr "Ann Lee"
    ∧ Ampeco.holderName (.vObj []) (some c5OnlyMail) = .vStr "ann@example.com"
    ∧ Ampeco.holderName (.vObj []) none = .vNull := by
  refine ⟨claim_C5.1 [] [] [] [] [] c5Lbl, ?_, ?_, ?_, ?_, ?_⟩
  · exact claim_C5.2.1 c5Lbl (some c5User) " Bob " rfl (by decide)
  · exact claim_C5.2.2.1 (.vObj []) c5User (Or.inl rfl) (by decide)
  · exact claim_C5.2.2.2.1 (.vObj []) c5NoName (Or.inl rfl) (by decide) (by decide)
  · exact claim_C5.2.2.2.2.1 (.vObj []) c5OnlyMail (Or.inl rfl) (by decide) (by decide) (by decide)
  · exact claim_C5.2.2.2.2.2.2.1 (.vObj []) (Or.inl rfl)

/-! Claim C8. -/

/-- Reading a key from the spread of a value equals property access on the
value itself. -/
theorem getKvs_spread (s : JSVal) (k : String) :
    JSVal.getKvs s.spreadKvs k = s.getProp k := by
  cases s <;> rfl

/-- C8 (amended: the merge preserves every key outside the thirteen
enrichment-attribute keys, rather than every key outside the normalized
identity pair): for both variants, any field of the collected session whose
key is not an enrichment attribute has the same value on the enriched
record.  The identity pair userId/idTag is not among the overwritten keys
at all (the aggregator leaves it as collection set it), but a session field
that collides with an enrichment attribute key is overwritten. -/
theorem claim_C8 (cpM locM evM : JMap JSVal) (uM : JMap Ampeco.UserRec) (tagM : JMap JSVal)
    (s : JSVal) (k : String) (hk : k ∉ enrichKeys) :
    (Ampeco.enrichSession cpM locM evM uM tagM s).getProp k = s.getProp k
    ∧ (AmpecoB.enrichSession cpM locM evM uM s).getProp k = s.getProp k := by
  simp only [enrichKeys, List.mem_cons, List.not_mem_nil, or_false] at hk
  push_neg at hk
  constructor
  · unfold Ampeco.enrichSession
    simp only [JSVal.getProp]
    rw [getKvs_append_nomem _ _ _ (by simp [Ampeco.locFieldsKvs]; tauto),
      getKvs_append_nomem _ _ _ (by simp; tauto)]
    exact getKvs_spread s k
  · unfold AmpecoB.enrichSession
    simp only [JSVal.getProp]
    rw [getKvs_append_nomem _ _ _ (by simp [Ampeco.locFieldsKvs]; tauto),
      getKvs_append_nomem _ _ _ (by simp; tauto)]
    exact getKvs_spread s k

/-- C8 counterexample to the claim as stated: a collected session record
carrying its own `city` field (not one of the normalized identity pair) has
that field overwritten to null by the merge. -/
theorem claim_C8_cex :
    (Ampeco.mkSessionRec c8raw).getProp "city" = .vStr "Kaunas"
    ∧ (Ampeco.enrichSession [] [] [] [] [] (Ampeco.mkSessionRec c8raw)).getProp "city" = .vNull
    ∧ ("city" : String) ≠ "userId" ∧ ("city" : String) ≠ "idTag" := by
  with_unfolding_all decide

/-- C8 witness at a concrete key and record. -/
theorem claim_C8_witness :
    (("foo" : String) ∉ enrichKeys)
    ∧ ((Ampeco.enrichSession [] [] [] [] [] (.vObj [("foo", .vNum (.fin 1))])).getProp "foo"
          = (JSVal.vObj [("foo", .vNum (.fin 1))]).getProp "foo"
       ∧ (AmpecoB.enrichSession [] [] [] [] (.vObj [("foo", .vNum (.fin 1))])).getProp "foo"
          = (JSVal.vObj [("foo", .vNum (.fin 1))]).getProp "foo") :=
  ⟨by decide, claim_C8 [] [] [] [] [] (.vObj [("foo", .vNum (.fin 1))]) "foo" (by decide)⟩

/-! Claims C6 and C7. -/

/-- Replacing the entry of one key in place does not affect lookups of a
different key. -/
theorem find_map_set_ne {α : Type} (kSet kGet : JSVal) (v : α) (h : kSet ≠ kGet) :
    ∀ m : JMap α,
      List.find? (fun p => p.1 == kGet) (m.map (fun p => if p.1 == kSet then (kSet, v) else p))
        = List.find? (fun p => p.1 == kGet) m := by
  intro m
  induction m with
  | nil => rfl
  | cons p rest ih =>
      rcases p with ⟨pk, pv⟩
      simp only [List.map_cons, List.find?_cons]
      by_cases hpk : (pk == kSet) = true
      · rw [if_pos hpk]
        have hks : ((kSet, v).1 == kGet) = false := by simpa using h
        have hpkg : ((pk, pv).1 == kGet) = false := by
          have : pk = kSet := by simpa using hpk
          simp [this]
          simpa using h
        simp only [hks, hpkg, ih]
      · rw [if_neg hpk]
        cases hg : ((pk, pv).1 == kGet) <;> simp only [hg, ih]

/-- Setting one key of a map leaves every other key unchanged. -/
theorem mget_mset_ne {α : Type} (m : JMap α) (kSet kGet : JSVal) (v : α) (h : kSet ≠ kGet) :
    mget (mset m kSet v) kGet = mget m kGet := by
  unfold mset
  split_ifs with hhas
  · unfold mget
    rw [find_map_set_ne kSet kGet v h]
  · unfold mget
    rw [List.find?_append]
    have hnone : List.find? (fun p => p.1 == kGet) [(kSet, v)] = none := by simp [h]
    rw [hnone]
    cases List.find? (fun p => p.1 == kGet) m <;> rfl

/-- Filtering cannot introduce membership. -/
theorem contains_filter_false (l : List JSVal) (a : JSVal) (p : JSVal → Bool)
    (h : l.contains a = false) : (l.filter p).contains a = false := by
  rw [Bool.eq_false_iff] at h ⊢
  intro hc
  exact h (List.elem_iff.mpr (List.mem_of_mem_filter (List.elem_iff.mp hc)))

/-- The tier-3 page scan neither changes the stored record of an id outside
the missing set nor makes that id missing. -/
theorem tier3_scan_untouched (a : JSVal) :
    ∀ (es : List JSVal) (st : JMap JSVal × List JSVal), st.2.contains a = false →
      mget ((es.foldl (fun st e =>
          let id := (e.getPropQ "id").coalesce ((e.getPropQ "evseId").coalesce .vNull)
          if !id.nullish && st.2.contains id then
            (mset st.1 id e, st.2.filter (fun x => x != id))
          else st) st)).1 a = mget st.1 a
      ∧ ((es.foldl (fun st e =>
          let id := (e.getPropQ "id").coalesce ((e.getPropQ "evseId").coalesce .vNull)
          if !id.nullish && st.2.contains id then
            (mset st.1 id e, st.2.filter (fun x => x != id))
          else st) st)).2.contains a = false := by
  intro es
  induction es with
  | nil => intro st h; exact ⟨rfl, h⟩
  | cons e rest ih =>
      intro st h
      simp only [List.foldl_cons]
      by_cases hc : (!((e.getPropQ "id").coalesce ((e.getPropQ "evseId").coalesce JSVal.vNull)).nullish
          && st.2.contains ((e.getPropQ "id").coalesce ((e.getPropQ "evseId").coalesce JSVal.vNull))) = true
      · have hne : (e.getPropQ "id").coalesce ((e.getPropQ "evseId").coalesce JSVal.vNull) ≠ a := by
          intro heq
          rw [heq, h] at hc
          simp at hc
        rw [if_pos hc]
        have h2 : (st.2.filter (fun x =>
            x != (e.getPropQ "id").coalesce ((e.getPropQ "evseId").coalesce JSVal.vNull))).contains a = false :=
          contains_filter_false _ _ _ h
        obtain ⟨ih1, ih2⟩ := ih (mset st.1 ((e.getPropQ "id").coalesce ((e.getPropQ "evseId").coalesce JSVal.vNull)) e,
          st.2.filter (fun x => x != (e.getPropQ "id").coalesce ((e.getPropQ "evseId").coalesce JSVal.vNull))) h2
        exact ⟨ih1.trans (mget_mset_ne _ _ _ _ hne), ih2⟩
      · rw [if_neg hc]
        exact ih st h

/-- A string of length zero is the empty string. -/
theorem str_len_zero (s : String) (h : s.length = 0) : s = "" := by
  cases s with
  | mk data =>
      simp [String.length] at h
      simp [h]

/-- Appending a nonempty string yields a nonempty string. -/
theorem append_ne_empty_right (a b : String) (h : b ≠ "") : (a ++ b) ≠ "" := by
  intro hc
  have hl := congrArg String.length hc
  rw [String.length_append] at hl
  simp at hl
  exact h (str_len_zero b hl.2)

/-- C6 (amended: the fetch-sparing guarantees hold at the granularity the
code provides — when tier 1 resolved every wanted id, neither the tier-2
sub-listing walks nor the tier-3 global walk issue any request or change
anything, and tier 3 never alters the resolution of an id that is not
missing when it starts; however a tier-2 page, fetched because some OTHER
id was still unresolved, may re-deliver an id already resolved at tier 1
and overwrite its tier-1 record). -/
theorem claim_C6 :
    (∀ orc fuel2 base cpIds (m : JMap JSVal),
        AmpecoB.tier2 orc fuel2 base cpIds (m, []) = (m, []))
    ∧ (∀ orc mp base (st : JMap JSVal × List JSVal), st.2 = [] →
        AmpecoB.tier3 orc mp base st = st)
    ∧ (∀ orc fuel url idx (m : JMap JSVal) (missing : List JSVal) a,
        missing.contains a = false →
        mget (AmpecoB.tier3Walk orc fuel url idx (m, missing)).1 a = mget m a) := by
  refine ⟨?_, ?_, ?_⟩
  · intro orc fuel2 base cpIds m
    cases cpIds with
    | nil => rfl
    | cons c rest => simp [AmpecoB.tier2]
  · intro orc mp base st h
    unfold AmpecoB.tier3
    rw [if_pos (by simp [h])]
  · intro orc fuel
    induction fuel with
    | zero => intro url idx m missing a h; rfl
    | succ n ih =>
        intro url idx m missing a h
        unfold AmpecoB.tier3Walk
        by_cases hcond : (url.truthy && !missing.isEmpty) = true
        · rw [if_pos hcond]
          cases horc : orc idx with
          | err code txt => rfl
          | ok payload =>
              simp only []
              obtain ⟨h1, h2⟩ := tier3_scan_untouched a (JSVal.asArray (payload.getPropQ "data")) (m, missing) h
              have := ih (((payload.getPropQ "links").getPropQ "next").orElse .vNull) (idx + 1)
                ((JSVal.asArray (payload.getPropQ "data")).foldl (fun st e =>
                  let id := (e.getPropQ "id").coalesce ((e.getPropQ "evseId").coalesce .vNull)
                  if !id.nullish && st.2.contains id then
                    (mset st.1 id e, st.2.filter (fun x => x != id))
                  else st) (m, missing)).1
                ((JSVal.asArray (payload.getPropQ "data")).foldl (fun st e =>
                  let id := (e.getPropQ "id").coalesce ((e.getPropQ "evseId").coalesce .vNull)
                  if !id.nullish && st.2.contains id then
                    (mset st.1 id e, st.2.filter (fun x => x != id))
                  else st) (m, missing)).2
                a h2
              rw [← h1]
              exact this
        · rw [if_neg hcond]

/-- C6 counterexample to the claim as stated: the id e1 is resolved at
tier 1 (embedded record `evseA`), yet because e2 is still missing the
tier-2 sub-listing walk runs, re-delivers e1 and replaces its resolution
with the sub-listing record `evseB`. -/
theorem claim_C6_cex :
    mget (AmpecoB.tier2 orcC6 1 base0 [.vStr "cp1"] ([(.vStr "e1", evseA)], [.vStr "e2"])).1 (.vStr "e1")
        = some evseB
    ∧ mget [(.vStr "e1", evseA)] (.vStr "e1") = some evseA
    ∧ evseA ≠ evseB := by
  with_unfolding_all decide

/-- C6 witness at concrete tiers. -/
theorem claim_C6_witness :
    AmpecoB.tier2 orcC6 3 base0 [.vStr "cp1"] ([(.vStr "e1", evseA)], []) = ([(.vStr "e1", evseA)], [])
    ∧ AmpecoB.tier3 (fun _ => okEmpty) 5 base0 ([(.vStr "e1", evseA)], []) = ([(.vStr "e1", evseA)], [])
    ∧ mget (AmpecoB.tier3Walk (fun _ => okEmpty) 5 (.vStr "u") 0 ([(.vStr "e1", evseA)], [.vStr "e2"])).1 (.vStr "e1")
        = mget [(.vStr "e1", evseA)] (.vStr "e1") :=
  ⟨claim_C6.1 orcC6 3 base0 [.vStr "cp1"] [(.vStr "e1", evseA)],
   claim_C6.2.1 (fun _ => okEmpty) 5 base0 ([(.vStr "e1", evseA)], []) rfl,
   claim_C6.2.2 (fun _ => okEmpty) 5 (.vStr "u") 0 [(.vStr "e1", evseA)] [.vStr "e2"] (.vStr "e1")
     (by decide)⟩

/-- C7: a non-success page from the global v2.0 EVSE fallback listing never
fails the run — whenever the three mandatory walks succeed the handler of
the second variant returns a 200 success payload, whatever every equipment
oracle does; when the first fallback page is non-success the tier-3 walk
changes nothing (it stops consulting the listing); and a session whose
EVSE id is absent from the final equipment map is emitted with null
evseType, connectorStandards and maxPowerKw. -/
theorem claim_C7 :
    (∀ base u req kg fuel2 ss cpSt locM,
        AmpecoB.sessionsStage base u req kg = .ok ss → ss ≠ [] →
        AmpecoB.cpStage base u req ss = .ok cpSt →
        AmpecoB.locStage base u req cpSt.cpMap = .ok locM →
        ∃ body, AmpecoB.handler base u req kg fuel2 = ⟨200, body⟩)
    ∧ (∀ base u req kg fuel2,
        AmpecoB.sessionsStage base u req kg = .ok [] →
        AmpecoB.handler base u req kg fuel2 = ⟨200, okRespBody []⟩)
    ∧ (∀ orc fuel base (m : JMap JSVal) (missing : List JSVal) code txt,
        missing ≠ [] → orc 0 = .err code txt →
        AmpecoB.tier3 orc fuel base (m, missing) = (m, missing))
    ∧ (∀ cpM locM evM uM s,
        mget evM (s.getProp "evseId") = none →
        (AmpecoB.enrichSession cpM locM evM uM s).getProp "evseType" = .vNull
        ∧ (AmpecoB.enrichSession cpM locM evM uM s).getProp "connectorStandards" = .vNull
        ∧ (AmpecoB.enrichSession cpM locM evM uM s).getProp "maxPowerKw" = .vNull) := by
  refine ⟨?_, ?_, ?_, ?_⟩
  · intro base u req kg fuel2 ss cpSt locM hS hne hC hL
    unfold AmpecoB.handler
    rw [hS]
    simp only [List.length_eq_zero, hne, if_false, hC, hL]
    exact ⟨_, rfl⟩
  · intro base u req kg fuel2 hS
    unfold AmpecoB.handler
    rw [hS]
    rfl
  · intro orc fuel base m missing code txt hm horc
    unfold AmpecoB.tier3
    rw [if_neg (by simp [hm])]
    cases fuel with
    | zero => rfl
    | succ n =>
        unfold AmpecoB.tier3Walk
        rw [if_pos (by
          simp [JSVal.truthy, List.isEmpty_iff, hm,
            append_ne_empty_right base "/public-api/resources/evses/v2.0?per_page=100&cursor=" (by decide)]),
          horc]
  · intro cpM locM evM uM s hm
    have hv : mgetJS evM (s.getProp "evseId") = .vUndefined := by simp [mgetJS, hm]
    unfold AmpecoB.enrichSession
    rw [hv]
    refine ⟨?_, ?_, ?_⟩ <;>
      simp [JSVal.getProp, JSVal.getKvs, List.reverse_append, Ampeco.locFieldsKvs,
        AmpecoB.extractEvseFields, JSVal.truthy, JSVal.typeofObject]

/-- C7 witness: with the global fallback listing returning 404 the handler
still answers 200, the tier-3 walk changes nothing, and the unresolved
session carries null equipment attributes. -/
theorem claim_C7_witness :
    (∃ body, AmpecoB.handler base0 uC7 reqW kgW 3 = ⟨200, body⟩)
    ∧ AmpecoB.tier3 (fun _ => .err 404 "nope") 10 base0 ([], [.vStr "e9"]) = ([], [.vStr "e9"])
    ∧ (AmpecoB.enrichSession [] [] [] [] sessE).getProp "evseType" = .vNull := by
  refine ⟨?_, ?_, ?_⟩
  · exact claim_C7.1 base0 uC7 reqW kgW 3 [AmpecoB.mkSessionRec sessE] ⟨[], [], []⟩ []
      (by with_unfolding_all rfl) (by decide)
      (by with_unfolding_all rfl) (by with_unfolding_all rfl)
  · exact claim_C7.2.2.1 (fun _ => .err 404 "nope") 10 base0 [] [.vStr "e9"] 404 "nope"
      (by decide) rfl
  · exact (claim_C7.2.2.2 [] [] [] [] sessE rfl).1

/-! Claim C4. -/

/-- Every failure of the sessions walk originates from a non-success page
fetch and carries the stage name, that upstream status, a url, and the
response body. -/
theorem sessionsWalk_error (orc : Nat → Fetched) (kg : Nat → String) :
    ∀ fuel next idx st e, Ampeco.sessionsWalk orc kg fuel next idx st = .error e →
      ∃ n code txt url, orc n = .err code txt
        ∧ e = ⟨code, failRespBody "sessions" code url txt⟩ := by
  intro fuel
  induction fuel with
  | zero =>
      intro next idx st e h
      simp [Ampeco.sessionsWalk] at h
  | succ n ih =>
      intro next idx st e h
      unfold Ampeco.sessionsWalk at h
      by_cases ht : next.truthy = true
      · rw [if_pos ht] at h
        cases horc : orc idx with
        | err code txt =>
            rw [horc] at h
            simp only [Except.error.injEq] at h
            exact ⟨idx, code, txt, next, horc, h.symm⟩
        | ok page =>
            rw [horc] at h
            exact ih _ _ _ _ h
      · rw [if_neg ht] at h
        simp at h

/-- Every failure of the charge-point walk originates from a non-success
page fetch and carries the stage name, status, a url and the body. -/
theorem cpWalk_error (orc : Nat → Fetched) :
    ∀ fuel next idx st e, Ampeco.cpWalk orc fuel next idx st = .error e →
      ∃ n code txt url, orc n = .err code txt
        ∧ e = ⟨code, failRespBody "charge-points" code url txt⟩ := by
  intro fuel
  induction fuel with
  | zero =>
      intro next idx st e h
      simp [Ampeco.cpWalk] at h
  | succ n ih =>
      intro next idx st e h
      unfold Ampeco.cpWalk at h
      by_cases ht : (next.truthy && !st.2.isEmpty) = true
      · rw [if_pos ht] at h
        cases horc : orc idx with
        | err code txt =>
            rw [horc] at h
            simp only [Except.error.injEq] at h
            exact ⟨idx, code, txt, next, horc, h.symm⟩
        | ok page =>
            rw [horc] at h
            exact ih _ _ _ _ h
      · rw [if_neg ht] at h
        simp at h

/-- Every failure of the locations walk originates from a non-success page
fetch and carries the stage name, status, a url and the body. -/
theorem locWalk_error (orc : Nat → Fetched) :
    ∀ fuel next idx st e, Ampeco.locWalk orc fuel next idx st = .error e →
      ∃ n code txt url, orc n = .err code txt
        ∧ e = ⟨code, failRespBody "locations" code url txt⟩ := by
  intro fuel
  induction fuel with
  | zero =>
      intro next idx st e h
      simp [Ampeco.locWalk] at h
  | succ n ih =>
      intro next idx st e h
      unfold Ampeco.locWalk at h
      by_cases ht : (next.truthy && !st.2.isEmpty) = true
      · rw [if_pos ht] at h
        cases horc : orc idx with
        | err code txt =>
            rw [horc] at h
            simp only [Except.error.injEq] at h
            exact ⟨idx, code, txt, next, horc, h.symm⟩
        | ok page =>
            rw [horc] at h
            exact ih _ _ _ _ h
      · rw [if_neg ht] at h
        simp at h

/-- C4: a failing mandatory listing walk (sessions, charge-points,
locations) makes the whole run return exactly the staged failure payload
(stage name, upstream status, url, body — with no data, so partial results
are discarded); whereas with all listing walks succeeding the run returns
200 for EVERY behavior of the per-id user and id-tag fan-out oracles, and a
failing per-id fetch merely leaves that id absent from the user map. -/
theorem claim_C4 :
    (∀ base u req kg e, Ampeco.sessionsStage base u req kg = .error e →
        Ampeco.handler base u req kg = e)
    ∧ (∀ base u req kg e, Ampeco.sessionsStage base u req kg = .error e →
        ∃ n code txt url, u.sessionPages n = .err code txt
          ∧ e = ⟨code, failRespBody "sessions" code url txt⟩)
    ∧ (∀ base u req kg ss e, Ampeco.sessionsStage base u req kg = .ok ss → ss ≠ [] →
        Ampeco.cpStage base u req ss = .error e → Ampeco.handler base u req kg = e)
    ∧ (∀ base u req ss e, Ampeco.cpStage base u req ss = .error e →
        ∃ n code txt url, u.cpPages n = .err code txt
          ∧ e = ⟨code, failRespBody "charge-points" code url txt⟩)
    ∧ (∀ base u req kg ss cpm e, Ampeco.sessionsStage base u req kg = .ok ss → ss ≠ [] →
        Ampeco.cpStage base u req ss = .ok cpm →
        Ampeco.locStage base u req cpm = .error e → Ampeco.handler base u req kg = e)
    ∧ (∀ base u req cpm e, Ampeco.locStage base u req cpm = .error e →
        ∃ n code txt url, u.locPages n = .err code txt
          ∧ e = ⟨code, failRespBody "locations" code url txt⟩)
    ∧ (∀ stage code url txt, (failRespBody stage code url txt).getProp "data" = .vUndefined
        ∧ (failRespBody stage code url txt).getProp "count" = .vUndefined
        ∧ (failRespBody stage code url txt).getProp "stage" = .vStr stage
        ∧ (failRespBody stage code url txt).getProp "upstreamStatus" = .vNum (.fin (code : ℚ))
        ∧ (failRespBody stage code url txt).getProp "url" = url
        ∧ (failRespBody stage code url txt).getProp "body" = .vStr txt)
    ∧ (∀ base u req kg uf tf ss cpm locm evm,
        Ampeco.sessionsStage base u req kg = .ok ss → ss ≠ [] →
        Ampeco.cpStage base u req ss = .ok cpm →
        Ampeco.locStage base u req cpm = .ok locm →
        Ampeco.evseStage base u req ss = .ok evm →
        ∃ body, Ampeco.handler base (setFanouts u uf tf) req kg = ⟨200, body⟩)
    ∧ (∀ (orc : JSVal → Fetched) ids (m : JMap Ampeco.UserRec) uid code txt,
        orc uid = .err code txt →
        mget (Ampeco.usersFanout orc ids m) uid = mget m uid) := by
  refine ⟨?_, ?_, ?_, ?_, ?_, ?_, ?_, ?_, ?_⟩
  · intro base u req kg e hS
    unfold Ampeco.handler
    rw [hS]
  · intro base u req kg e hS
    unfold Ampeco.sessionsStage at hS
    cases hw : Ampeco.sessionsWalk u.sessionPages kg req.maxPages
        (.vStr (Ampeco.sessionsUrl base req)) 0 ⟨[], 0, []⟩ with
    | error e' =>
        rw [hw] at hS
        simp [Except.map] at hS
        exact hS ▸ sessionsWalk_error u.sessionPages kg _ _ _ _ _ hw
    | ok st =>
        rw [hw] at hS
        simp [Except.map] at hS
  · intro base u req kg ss e hS hne hC
    unfold Ampeco.handler
    rw [hS]
    simp only [List.length_eq_zero, hne, if_false, hC]
  · intro base u req ss e hC
    exact cpWalk_error u.cpPages _ _ _ _ _ hC
  · intro base u req kg ss cpm e hS hne hC hL
    unfold Ampeco.handler
    rw [hS]
    simp only [List.length_eq_zero, hne, if_false, hC, hL]
  · intro base u req cpm e hL
    exact locWalk_error u.locPages _ _ _ _ _ hL
  · intro stage code url txt
    refine ⟨rfl, rfl, rfl, rfl, rfl, rfl⟩
  · intro base u req kg uf tf ss cpm locm evm hS hne hC hL hE
    have hS' : Ampeco.sessionsStage base (setFanouts u uf tf) req kg = .ok ss := hS
    have hC' : Ampeco.cpStage base (setFanouts u uf tf) req ss = .ok cpm := hC
    have hL' : Ampeco.locStage base (setFanouts u uf tf) req cpm = .ok locm := hL
    have hE' : Ampeco.evseStage base (setFanouts u uf tf) req ss = .ok evm := hE
    unfold Ampeco.handler
    rw [hS']
    simp only [List.length_eq_zero, hne, if_false, hC', hL', hE']
    exact ⟨_, rfl⟩
  · intro orc ids m uid code txt horc
    induction ids generalizing m with
    | nil => rfl
    | cons i rest ih =>
        simp only [Ampeco.usersFanout, List.foldl_cons]
        cases hoi : orc i with
        | err c t =>
            simp only [hoi]
            exact ih m
        | ok payload =>
            simp only [hoi]
            have hne2 : i ≠ uid := by
              intro he
              rw [he, horc] at hoi
              cases hoi
            have := ih (mset m i (Ampeco.parseUserPayload payload))
            simp only [Ampeco.usersFanout] at this
            rw [this]
            exact mget_mset_ne _ _ _ _ hne2

/-- C4 witness: a failing sessions page fails the run with the staged
payload; a failing charge-point page likewise; with listings fine the run
returns 200 even when both fan-out endpoints always fail; a failing per-id
fetch leaves the id absent. -/
theorem claim_C4_witness :
    Ampeco.handler base0 uFailSess reqW kgW
        = ⟨503, failRespBody "sessions" 503 (.vStr (Ampeco.sessionsUrl base0 reqW)) "boom"⟩
    ∧ Ampeco.handler base0 uFailCp reqW kgW
        = ⟨500, failRespBody "charge-points" 500
            (.vStr (base0 ++ "/public-api/resources/charge-points/v1.0?per_page=100&cursor=")) "cpboom"⟩
    ∧ (∃ body, Ampeco.handler base0
        (setFanouts uFanFail (fun _ => .err 500 "ubroke") (fun _ => .err 500 "tbroke")) reqW kgW
        = ⟨200, body⟩)
    ∧ mget (Ampeco.usersFanout (fun _ => .err 500 "ubroke") [.vNum (.fin 5)] []) (.vNum (.fin 5))
        = mget ([] : JMap Ampeco.UserRec) (.vNum (.fin 5)) := by
  refine ⟨?_, ?_, ?_, ?_⟩
  · exact claim_C4.1 base0 uFailSess reqW kgW _ (by with_unfolding_all rfl)
  · exact claim_C4.2.2.1 base0 uFailCp reqW kgW [Ampeco.mkSessionRec sess1] _
      (by with_unfolding_all rfl) (by decide) (by with_unfolding_all rfl)
  · exact claim_C4.2.2.2.2.2.2.2.1 base0 uFanFail reqW kgW
      (fun _ => .err 500 "ubroke") (fun _ => .err 500 "tbroke")
      [Ampeco.mkSessionRec sess1] [] [] []
      (by with_unfolding_all rfl) (by decide) (by with_unfolding_all rfl)
      (by with_unfolding_all rfl) (by with_unfolding_all rfl)
  · exact claim_C4.2.2.2.2.2.2.2.2 (fun _ => .err 500 "ubroke") [.vNum (.fin 5)] []
      (.vNum (.fin 5)) 500 "ubroke" rfl

/-! Claim C3. -/

/-- The record constructor keeps the id field unchanged (none of the five
appended bindings is named id). -/
theorem mkSessionRec_id (s : JSVal) :
    (Ampeco.mkSessionRec s).getProp "id" = s.getProp "id" := by
  unfold Ampeco.mkSessionRec
  simp only [JSVal.getProp]
  rw [getKvs_append_nomem _ _ _ (by simp)]
  exact getKvs_spread s "id"

/-- The key predicate transfers to the constructed record. -/
theorem hasIdKey_mkSessionRec (k : String) (s : JSVal) :
    hasIdKey k (Ampeco.mkSessionRec s) = hasIdKey k s := by
  simp [hasIdKey, mkSessionRec_id]

/-- The no-identifier predicate transfers to the constructed record. -/
theorem noIdKey_mkSessionRec (s : JSVal) :
    noIdKey (Ampeco.mkSessionRec s) = noIdKey s := by
  simp [noIdKey, mkSessionRec_id]

/-- Membership in the seen set after appending one key. -/
theorem contains_append_one (l : List String) (x k : String) :
    (l ++ [x]).contains k = (l.contains k || (k == x)) := by
  simp
  rfl

/-- Per-key counting through the collector: processing a record list adds
exactly one key-k record when k is not yet seen and occurs in the list (0
otherwise), and marks k seen exactly when it was seen or occurs — provided
the fresh-key generator never produces k. -/
theorem collect_count_key (kg : Nat → String) (k : String) (hkg : ∀ n, kg n ≠ k) :
    ∀ (rs : List JSVal) (st : Ampeco.CState),
      ((Ampeco.collectData kg st rs).out.countP (hasIdKey k)
          = st.out.countP (hasIdKey k)
            + (if st.seen.contains k then 0 else if rs.countP (hasIdKey k) = 0 then 0 else 1))
      ∧ ((Ampeco.collectData kg st rs).seen.contains k
          = (st.seen.contains k || decide (rs.countP (hasIdKey k) ≠ 0))) := by
  intro rs
  induction rs with
  | nil =>
      intro st
      constructor
      · simp [Ampeco.collectData]
      · simp [Ampeco.collectData]
  | cons r rest ih =>
      intro st
      have hstep : Ampeco.collectData kg st (r :: rest)
          = Ampeco.collectData kg (Ampeco.collectStep kg st r) rest := rfl
      rw [hstep, List.countP_cons]
      by_cases hnull : (r.getProp "id").nullish = true
      · have hkr : hasIdKey k r = false := by simp [hasIdKey, hnull]
        simp only [hkr, Bool.false_eq_true, if_false, Nat.add_zero]
        unfold Ampeco.collectStep
        rw [if_pos hnull]
        by_cases hfs : st.seen.contains (kg st.ctr) = true
        · rw [if_pos hfs]
          exact ih ⟨st.seen, st.ctr + 1, st.out⟩
        · rw [if_neg hfs]
          obtain ⟨ih1, ih2⟩ :=
            ih ⟨st.seen ++ [kg st.ctr], st.ctr + 1, st.out ++ [Ampeco.mkSessionRec r]⟩
          have hrecP : hasIdKey k (Ampeco.mkSessionRec r) = false := by
            rw [hasIdKey_mkSessionRec]; exact hkr
          have hout : (st.out ++ [Ampeco.mkSessionRec r]).countP (hasIdKey k)
              = st.out.countP (hasIdKey k) := by
            simp [List.countP_append, List.countP_cons, hrecP]
          have hseen : (st.seen ++ [kg st.ctr]).contains k = st.seen.contains k := by
            rw [contains_append_one]
            have hne : (k == kg st.ctr) = false := by
              simp
              exact fun h => (hkg st.ctr) h.symm
            simp [hne]
          exact ⟨by rw [ih1, hout, hseen], by rw [ih2, hseen]⟩
      · have hnull' : (r.getProp "id").nullish = false := by simpa using hnull
        unfold Ampeco.collectStep
        rw [if_neg (by simp [hnull'])]
        by_cases hsk : st.seen.contains (jsToString (r.getProp "id")) = true
        · rw [if_pos hsk]
          obtain ⟨ih1, ih2⟩ := ih st
          by_cases hkk : jsToString (r.getProp "id") = k
          · have hPr : hasIdKey k r = true := by simp [hasIdKey, hnull', hkk]
            have hstk : st.seen.contains k = true := hkk ▸ hsk
            constructor
            · rw [ih1, hstk]
              simp
            · rw [ih2, hstk]
              simp
          · have hPr : hasIdKey k r = false := by simp [hasIdKey, hnull', hkk]
            constructor
            · rw [ih1, hPr]
              simp
            · rw [ih2, hPr]
              simp
        · rw [if_neg hsk]
          obtain ⟨ih1, ih2⟩ :=
            ih ⟨st.seen ++ [jsToString (r.getProp "id")], st.ctr,
                st.out ++ [Ampeco.mkSessionRec r]⟩
          by_cases hkk : jsToString (r.getProp "id") = k
          · have hstk : st.seen.contains k = false := by rw [← hkk]; simpa using hsk
            have hPr : hasIdKey k r = true := by simp [hasIdKey, hnull', hkk]
            have hrecP : hasIdKey k (Ampeco.mkSessionRec r) = true := by
              rw [hasIdKey_mkSessionRec]; exact hPr
            have hseen' : (st.seen ++ [jsToString (r.getProp "id")]).contains k = true := by
              rw [contains_append_one]
              simp [hkk]
            have hout : (st.out ++ [Ampeco.mkSessionRec r]).countP (hasIdKey k)
                = st.out.countP (hasIdKey k) + 1 := by
              simp [List.countP_append, List.countP_cons, hrecP]
            constructor
            · rw [ih1, hout, hseen', hstk, hPr]
              simp
            · rw [ih2, hseen', hstk, hPr]
              simp
          · have hPr : hasIdKey k r = false := by simp [hasIdKey, hnull', hkk]
            have hrecP : hasIdKey k (Ampeco.mkSessionRec r) = false := by
              rw [hasIdKey_mkSessionRec]; exact hPr
            have hseen' : (st.seen ++ [jsToString (r.getProp "id")]).contains k
                = st.seen.contains k := by
              rw [contains_append_one]
              have hne : (k == jsToString (r.getProp "id")) = false := by
                simp
                exact fun h => hkk h.symm
              simp [hne]
            have hout : (st.out ++ [Ampeco.mkSessionRec r]).countP (hasIdKey k)
                = st.out.countP (hasIdKey k) := by
              simp [List.countP_append, List.countP_cons, hrecP]
            constructor
            · rw [ih1, hout, hseen', hPr]
              simp
            · rw [ih2, hseen', hPr]
              simp

/-- Records lacking a stable identifier are all kept: when the fresh keys
are pairwise distinct, distinct from every real key of the list, and not
yet seen, the collector emits one output record per id-less input record. -/
theorem collect_count_noid (kg : Nat → String) (hinj : Function.Injective kg) :
    ∀ (rs : List JSVal) (st : Ampeco.CState),
      (∀ n r, r ∈ rs → (r.getProp "id").nullish = false → kg n ≠ jsToString (r.getProp "id")) →
      (∀ m, st.ctr ≤ m → st.seen.contains (kg m) = false) →
      (Ampeco.collectData kg st rs).out.countP noIdKey
        = st.out.countP noIdKey + rs.countP noIdKey := by
  intro rs
  induction rs with
  | nil =>
      intro st _ _
      simp [Ampeco.collectData]
  | cons r rest ih =>
      intro st hreal hfree
      have hstep : Ampeco.collectData kg st (r :: rest)
          = Ampeco.collectData kg (Ampeco.collectStep kg st r) rest := rfl
      rw [hstep, List.countP_cons]
      have hrealr : ∀ n r', r' ∈ rest → (r'.getProp "id").nullish = false →
          kg n ≠ jsToString (r'.getProp "id") :=
        fun n r' hr' => hreal n r' (List.mem_cons_of_mem _ hr')
      by_cases hnull : (r.getProp "id").nullish = true
      · have hfs : st.seen.contains (kg st.ctr) = false := hfree st.ctr le_rfl
        have hnoid : noIdKey r = true := by simp [noIdKey, hnull]
        have hrec : noIdKey (Ampeco.mkSessionRec r) = true := by
          rw [noIdKey_mkSessionRec]; exact hnoid
        unfold Ampeco.collectStep
        rw [if_pos hnull, if_neg (by simpa using hfs)]
        have hfree' : ∀ m, st.ctr + 1 ≤ m →
            (st.seen ++ [kg st.ctr]).contains (kg m) = false := by
          intro m hm
          rw [contains_append_one]
          have h1 : st.seen.contains (kg m) = false := hfree m (Nat.le_of_succ_le hm)
          have h2 : (kg m == kg st.ctr) = false := by
            simp
            intro he
            have := hinj he
            omega
          rw [h1, h2]
          rfl
        have hih := ih ⟨st.seen ++ [kg st.ctr], st.ctr + 1, st.out ++ [Ampeco.mkSessionRec r]⟩
          hrealr hfree'
        rw [hih, hnoid]
        simp [List.countP_append, List.countP_cons, hrec]
        omega
      · have hnull' : (r.getProp "id").nullish = false := by simpa using hnull
        have hnoid : noIdKey r = false := by simp [noIdKey, hnull']
        have hrec : noIdKey (Ampeco.mkSessionRec r) = false := by
          rw [noIdKey_mkSessionRec]; exact hnoid
        unfold Ampeco.collectStep
        rw [if_neg (by simp [hnull'])]
        by_cases hsk : st.seen.contains (jsToString (r.getProp "id")) = true
        · rw [if_pos hsk]
          rw [ih st hrealr hfree, hnoid]
          simp
        · rw [if_neg hsk]
          have hfree' : ∀ m, st.ctr ≤ m →
              (st.seen ++ [jsToString (r.getProp "id")]).contains (kg m) = false := by
            intro m hm
            rw [contains_append_one]
            have h2 : (kg m == jsToString (r.getProp "id")) = false := by
              simp
              exact hreal m r (List.mem_cons_self r rest) hnull'
            rw [hfree m hm, h2]
            rfl
          have hih := ih ⟨st.seen ++ [jsToString (r.getProp "id")], st.ctr,
              st.out ++ [Ampeco.mkSessionRec r]⟩ hrealr hfree'
          rw [hih, hnoid]
          simp [List.countP_append, List.countP_cons, hrec]

/-- Page-by-page collection equals collection of the concatenated records. -/
theorem foldl_collectData_flatten (kg : Nat → String) :
    ∀ (pages : List (List JSVal)) (st : Ampeco.CState),
      pages.foldl (Ampeco.collectData kg) st = Ampeco.collectData kg st pages.flatten := by
  intro pages
  induction pages with
  | nil => intro st; rfl
  | cons p rest ih =>
      intro st
      rw [List.foldl_cons, List.flatten_cons, ih]
      unfold Ampeco.collectData
      rw [List.foldl_append]

/-- C3: over any sequence of session pages, the collected list has exactly
one record per distinct identifier string occurring in the pages (none for
absent identifiers), and keeps every record lacking a stable identifier —
under the freshness of the generated keys (pairwise distinct, never equal
to the identifier in question nor to any real identifier of the input). -/
theorem claim_C3 (kg : Nat → String) (pages : List (List JSVal)) :
    (∀ k : String, (∀ n, kg n ≠ k) →
      (collectPages kg pages).countP (hasIdKey k)
        = min 1 (pages.flatten.countP (hasIdKey k)))
    ∧ (Function.Injective kg →
        (∀ n r, r ∈ pages.flatten → (r.getProp "id").nullish = false →
          kg n ≠ jsToString (r.getProp "id")) →
        (collectPages kg pages).countP noIdKey = pages.flatten.countP noIdKey) := by
  have hpf : collectPages kg pages
      = (Ampeco.collectData kg ⟨[], 0, []⟩ pages.flatten).out := by
    unfold collectPages
    rw [foldl_collectData_flatten]
  constructor
  · intro k hkg
    rw [hpf]
    obtain ⟨h1, _⟩ := collect_count_key kg k hkg pages.flatten ⟨[], 0, []⟩
    rw [h1]
    simp only [List.countP_nil, Nat.zero_add]
    have hc : (([] : List String).contains k) = false := rfl
    rw [hc]
    simp only [Bool.false_eq_true, if_false]
    cases hn : pages.flatten.countP (hasIdKey k) with
    | zero => simp
    | succ m => simp [Nat.min_def]
  · intro hinj hreal
    rw [hpf]
    have := collect_count_noid kg hinj pages.flatten ⟨[], 0, []⟩ hreal
      (fun m _ => rfl)
    rw [this]
    simp

/-- C3 witness: two pages where the identifier a appears on both pages and
two records lack identifiers; the collector keeps one record with key a and
both id-less records. -/
theorem claim_C3_witness :
    ((∀ n, kgW n ≠ "a")
      ∧ (collectPages kgW c3Pages).countP (hasIdKey "a")
          = min 1 (c3Pages.flatten.countP (hasIdKey "a")))
    ∧ (Function.Injective kgW
      ∧ (collectPages kgW c3Pages).countP noIdKey = c3Pages.flatten.countP noIdKey) := by
  have hnota : ∀ n, kgW n ≠ "a" := by
    intro n h
    have hd := congrArg String.data h
    simp only [kgW] at hd
    rw [List.replicate_succ] at hd
    simp at hd
  have hinj : Function.Injective kgW := by
    intro a b h
    have hd := congrArg (fun s => s.data.length) h
    simp only [kgW] at hd
    simp [List.length_replicate] at hd
    exact hd
  refine ⟨⟨hnota, (claim_C3 kgW c3Pages).1 "a" hnota⟩, hinj, (claim_C3 kgW c3Pages).2 hinj ?_⟩
  intro n r hr hnn
  have hcases : r = c3A ∨ r = c3NoId ∨ r = c3A2 := by
    simp [c3Pages, List.mem_cons] at hr
    tauto
  rcases hcases with h | h | h
  · rw [h]
    intro hx
    exact hnota n (by simpa [c3A, JSVal.getProp, JSVal.getKvs, jsToString] using hx)
  · rw [h] at hnn
    simp [c3NoId, JSVal.getProp, JSVal.getKvs, JSVal.nullish] at hnn
  · rw [h]
    intro hx
    exact hnota n (by simpa [c3A2, JSVal.getProp, JSVal.getKvs, jsToString] using hx)

/-! Claim C10. -/

/-- The session walks of the two variants agree on every input. -/
theorem sessionsWalk_eq (orc : Nat → Fetched) (kg : Nat → String) :
    ∀ fuel next idx st,
      AmpecoB.sessionsWalk orc kg fuel next idx st
        = Ampeco.sessionsWalk orc kg fuel next idx st := by
  intro fuel
  induction fuel with
  | zero => intro next idx st; rfl
  | succ n ih =>
      intro next idx st
      unfold AmpecoB.sessionsWalk Ampeco.sessionsWalk
      by_cases ht : next.truthy = true
      · rw [if_pos ht, if_pos ht]
        cases orc idx with
        | err code txt => rfl
        | ok page => exact ih _ _ _
      · rw [if_neg ht, if_neg ht]

/-- C10: the session-collection stages of the two pipeline variants are
extensionally equal — same query string, same record resolution (userId,
idTag, raw fields, kWh), same deduplication, same collected list in the
same order, and the same staged failure on a failing page. -/
theorem claim_C10 :
    (∀ base u req kg, AmpecoB.sessionsStage base u req kg = Ampeco.sessionsStage base u req kg)
    ∧ (∀ s, AmpecoB.mkSessionRec s = Ampeco.mkSessionRec s)
    ∧ (∀ s, AmpecoB.resolvedUserId s = Ampeco.resolvedUserId s)
    ∧ (∀ s, AmpecoB.resolvedIdTag s = Ampeco.resolvedIdTag s)
    ∧ (∀ s, AmpecoB.kWh s = Ampeco.kWh s)
    ∧ (∀ kg st data, AmpecoB.collectData kg st data = Ampeco.collectData kg st data)
    ∧ (∀ base req, AmpecoB.sessionsUrl base req = Ampeco.sessionsUrl base req) := by
  refine ⟨?_, fun s => rfl, fun s => rfl, fun s => rfl, fun s => rfl,
    fun kg st data => rfl, fun base req => rfl⟩
  intro base u req kg
  unfold AmpecoB.sessionsStage Ampeco.sessionsStage
  rw [sessionsWalk_eq]
  rfl
